import Mathlib

/-! # UrbanRide front end: presence, location tracking and fare estimation

A shallow embedding of the handlers of `src/pages/driver/DriverDashboard.js`
and `src/pages/rider/RiderDashboard.js`, and of the parts of
`src/contexts/AuthContext.js`, `src/components/ProtectedRoute.js`,
`src/pages/Login.js`, `src/components/ForgotPassword.js`,
`src/pages/rider/RiderPaymentMethods.js` and `src/pages/driver/DriverTrips.js`
that the properties below are about.

Modelling conventions.

* A React function component re-creates its handlers on every render; each
  handler reads the state variables of the render that created it.  A handler
  therefore takes the render snapshot it closes over (`snap`) next to the
  system it acts on: reads of state variables go to `snap`, calls of
  `setX(v)` write the current state, and `useRef` cells are read and written
  in place.
* Calls into the browser and the back end (`fetch`, `console.error`,
  `navigator.geolocation.*`, `setInterval`, `alert`, `navigate`) are appended
  to an effect log in program order.
* What the environment decides (the outcome of a `fetch`, the presence of
  `navigator.geolocation`, the ids handed out by `watchPosition` and
  `setInterval`) is an argument of the handler.
* An `async` handler is run to completion with the outcome of the request it
  awaits; other handlers interleaving at the `await` are not part of the
  model.
-/

/-- How a call ends: normally, or by a thrown exception; either way with the
system as it was left. -/
inductive Completion (σ : Type) where
  | normal (s : σ)
  | threw (s : σ)
  deriving DecidableEq, Repr

/-- The system a completion leaves behind. -/
def Completion.sys {σ : Type} : Completion σ → σ
  | .normal s => s
  | .threw s => s

/-- Sequencing: a thrown exception skips the rest. -/
def Completion.andThen {σ : Type} (c : Completion σ) (f : σ → Completion σ) : Completion σ :=
  match c with
  | .normal s => f s
  | .threw s => .threw s

/-- The statement `try { ... } catch { handler }`: the handler runs on what a
throw left behind. -/
def Completion.catchWith {σ : Type} (c : Completion σ) (handler : σ → Completion σ) :
    Completion σ :=
  match c with
  | .normal s => .normal s
  | .threw s => handler s

/-- What the caller of an `async` function without `return` statement gets
back: a promise resolved with `undefined`, or a rejected one. -/
inductive Settled where
  | resolvedUndefined
  | rejected
  deriving DecidableEq, Repr

/-- The promise a completion settles. -/
def Completion.settled {σ : Type} : Completion σ → Settled
  | .normal _ => .resolvedUndefined
  | .threw _ => .rejected

namespace DriverDashboard

/-- The pair `[latitude, longitude]` kept in `currentLocation`.  The handlers
only copy the two numbers, so they are carried as integers (micro-degrees). -/
abbrev LatLng := Int × Int

/-- The `stats` state variable (line 40). -/
structure Stats where
  todayEarnings : Int
  totalTrips : Int
  rating : String
  onlineTime : String
  deriving DecidableEq, Repr

/-- The state variables of one render of `DriverDashboard` (lines 35-46). -/
structure State where
  isOnline : Bool
  sidebarOpen : Bool
  currentLocation : Option LatLng
  locationError : String
  isTracking : Bool
  stats : Stats
  loading : Bool
  deriving DecidableEq, Repr

/-- How a `fetch` ends: a response with `ok`, a response without `ok`, or a
rejected promise (network error). -/
inductive FetchOutcome where
  | ok
  | notOk
  | networkError
  deriving DecidableEq, Repr

/-- Calls that leave the component.  A registered callback is recorded with
the render snapshot it closes over. -/
inductive Effect where
  /-- `POST /driver/location` with body `{latitude, longitude, online}`. -/
  | fetchLocation (latitude longitude : Int) (online : Bool)
  /-- `POST /driver/online` with body `{online}`. -/
  | fetchOnline (online : Bool)
  | consoleError (msg : String)
  | getCurrentPosition (closure : State)
  | watchPosition (id : Nat) (closure : State)
  | setInterval (id : Nat) (closure : State)
  | clearWatch (id : Nat)
  | clearInterval (id : Nat)
  /-- `localStorage.removeItem(key)`. -/
  | removeItem (key : String)
  /-- `navigate(path)`. -/
  | navigate (path : String)
  deriving DecidableEq, Repr

/-- The component instance: current state, the two `useRef` cells
(lines 48-49) and the effect log. -/
structure Sys where
  state : State
  watchIdRef : Option Nat
  locationUpdateInterval : Option Nat
  log : List Effect
  deriving DecidableEq, Repr

/-- The state of the first render (lines 35-46). -/
def initialState : State :=
  { isOnline := false, sidebarOpen := false, currentLocation := none,
    locationError := "", isTracking := false,
    stats := { todayEarnings := 0, totalTrips := 0, rating := "New", onlineTime := "0h 0m" },
    loading := false }

/-- The freshly mounted component. -/
def initialSys : Sys :=
  { state := initialState, watchIdRef := none, locationUpdateInterval := none, log := [] }

/-- JavaScript truthiness of a ref cell holding `null` or a number. -/
def truthy : Option Nat → Bool
  | none => false
  | some n => n != 0

def emit (e : Effect) (s : Sys) : Sys :=
  { s with log := s.log ++ [e] }

def setIsOnline (b : Bool) (s : Sys) : Sys :=
  { s with state := { s.state with isOnline := b } }

def setCurrentLocation (p : Option LatLng) (s : Sys) : Sys :=
  { s with state := { s.state with currentLocation := p } }

def setLocationError (msg : String) (s : Sys) : Sys :=
  { s with state := { s.state with locationError := msg } }

def setIsTracking (b : Bool) (s : Sys) : Sys :=
  { s with state := { s.state with isTracking := b } }

def setLoading (b : Bool) (s : Sys) : Sys :=
  { s with state := { s.state with loading := b } }

/-- `updateDriverLocation` (lines 75-96): posts the position with the
`isOnline` of the closing render; a failure is only logged. -/
def updateDriverLocation (snap : State) (latitude longitude : Int)
    (outcome : FetchOutcome) (s : Sys) : Sys :=
  let s1 := emit (.fetchLocation latitude longitude snap.isOnline) s
  match outcome with
  | .ok => s1
  | .notOk => emit (.consoleError "Failed to update location") s1
  | .networkError => emit (.consoleError "Error updating location:") s1

/-- `updateOnlineStatus` (lines 99-118): posts the flag; on a response
without `ok` it throws inside its own `try`, whose `catch` logs the error,
as it does for a rejected `fetch`.  It returns normally in every case. -/
def updateOnlineStatus (online : Bool) (outcome : FetchOutcome) (s : Sys) : Sys :=
  let s1 := emit (.fetchOnline online) s
  match outcome with
  | .ok => s1
  | .notOk => emit (.consoleError "Error updating online status:") s1
  | .networkError => emit (.consoleError "Error updating online status:") s1

/-- `getCurrentLocation` (lines 121-161), up to the registration of the
one-shot request; `geo` says whether `navigator.geolocation` exists. -/
def getCurrentLocation (geo : Bool) (snap : State) (s : Sys) : Sys :=
  if !geo then
    setLocationError "Geolocation is not supported by this browser." s
  else
    emit (.getCurrentPosition snap) s

/-- The success callback of `getCurrentLocation` (lines 128-137). -/
def onCurrentPosition (snap : State) (pos : LatLng) (outcome : FetchOutcome) (s : Sys) : Sys :=
  let s1 := setCurrentLocation (some (pos.1, pos.2)) s
  let s2 := setLocationError "" s1
  if snap.isOnline then updateDriverLocation snap pos.1 pos.2 outcome s2 else s2

/-- The error kinds of the positioning API (`error.code`). -/
inductive PositionErrorCode where
  | permissionDenied
  | positionUnavailable
  | timeout
  | other
  deriving DecidableEq, Repr

/-- The error callback of `getCurrentLocation` (lines 138-154). -/
def onCurrentPositionError (code : PositionErrorCode) (s : Sys) : Sys :=
  let s1 := emit (.consoleError "Error getting location:") s
  match code with
  | .permissionDenied =>
    setLocationError "Location access denied. Please enable location permissions." s1
  | .positionUnavailable => setLocationError "Location information unavailable." s1
  | .timeout => setLocationError "Location request timed out." s1
  | .other => setLocationError "An unknown error occurred." s1

/-- The success callback handed to `watchPosition` (lines 171-178). -/
def onWatchPosition (snap : State) (pos : LatLng) (outcome : FetchOutcome) (s : Sys) : Sys :=
  let s1 := setCurrentLocation (some (pos.1, pos.2)) s
  let s2 := setLocationError "" s1
  updateDriverLocation snap pos.1 pos.2 outcome s2

/-- The error callback handed to `watchPosition` (lines 179-182). -/
def onWatchError (s : Sys) : Sys :=
  setLocationError "Unable to track location" (emit (.consoleError "Location tracking error:") s)

/-- The callback handed to `setInterval` (lines 193-197): it reads the
`currentLocation` of the render that created it. -/
def onHeartbeat (snap : State) (outcome : FetchOutcome) (s : Sys) : Sys :=
  match snap.currentLocation with
  | some loc => updateDriverLocation snap loc.1 loc.2 outcome s
  | none => s

/-- `startLocationTracking` (lines 164-198); `watchId` and `timerId` are the
ids returned by `watchPosition` and `setInterval`. -/
def startLocationTracking (geo : Bool) (snap : State) (watchId timerId : Nat) (s : Sys) : Sys :=
  if !geo then
    setLocationError "Geolocation not supported" s
  else
    let s1 := emit (.watchPosition watchId snap) s
    let s2 := { s1 with watchIdRef := some watchId }
    let s3 := setIsTracking true s2
    let s4 := emit (.setInterval timerId snap) s3
    { s4 with locationUpdateInterval := some timerId }

/-- Lines 202-205 of `stopLocationTracking`: `navigator.geolocation.clearWatch`
throws a `TypeError` when `navigator.geolocation` is undefined. -/
def stopWatch (geo : Bool) (s : Sys) : Completion Sys :=
  match s.watchIdRef with
  | none => .normal s
  | some id =>
    if id = 0 then .normal s
    else if geo then .normal { emit (.clearWatch id) s with watchIdRef := none }
    else .threw s

/-- Lines 206-209 of `stopLocationTracking`. -/
def stopTimer (s : Sys) : Sys :=
  match s.locationUpdateInterval with
  | none => s
  | some id =>
    if id = 0 then s
    else { emit (.clearInterval id) s with locationUpdateInterval := none }

/-- `stopLocationTracking` (lines 201-211). -/
def stopLocationTracking (geo : Bool) (s : Sys) : Completion Sys :=
  (stopWatch geo s).andThen fun s1 => .normal (setIsTracking false (stopTimer s1))

/-- `handleOnlineToggle` (lines 214-231). -/
def handleOnlineToggle (geo : Bool) (snap : State) (online : Bool) (outcome : FetchOutcome)
    (watchId timerId : Nat) (s : Sys) : Sys :=
  let s1 := setLoading true s
  let s2 := updateOnlineStatus online outcome s1
  let s3 := setIsOnline online s2
  let body : Completion Sys :=
    if online then
      .normal (startLocationTracking geo snap watchId timerId (getCurrentLocation geo snap s3))
    else
      stopLocationTracking geo s3
  let s4 :=
    match body with
    | .normal s => s
    | .threw s => emit (.consoleError "Error toggling online status:") s
  setLoading false s4

/-- A watch id is stored only where `navigator.geolocation` exists: the one
assignment to `watchIdRef` (line 170) sits behind the guard of line 165. -/
def Consistent (geo : Bool) (s : Sys) : Prop :=
  geo = false → truthy s.watchIdRef = false

/-- The systems the dashboard can be in: the freshly mounted one, and what
the handlers and callbacks of lines 75-231 make of a reachable one, for any
closing render and any answer of the environment. -/
inductive Reachable (geo : Bool) : Sys → Prop where
  | mount : Reachable geo initialSys
  | toggle (snap : State) (online : Bool) (outcome : FetchOutcome) (w t : Nat) (s : Sys) :
      Reachable geo s → Reachable geo (handleOnlineToggle geo snap online outcome w t s)
  | locate (snap : State) (s : Sys) :
      Reachable geo s → Reachable geo (getCurrentLocation geo snap s)
  | fix (snap : State) (pos : LatLng) (outcome : FetchOutcome) (s : Sys) :
      Reachable geo s → Reachable geo (onCurrentPosition snap pos outcome s)
  | fixError (code : PositionErrorCode) (s : Sys) :
      Reachable geo s → Reachable geo (onCurrentPositionError code s)
  | watch (snap : State) (pos : LatLng) (outcome : FetchOutcome) (s : Sys) :
      Reachable geo s → Reachable geo (onWatchPosition snap pos outcome s)
  | watchError (s : Sys) :
      Reachable geo s → Reachable geo (onWatchError s)
  | heartbeat (snap : State) (outcome : FetchOutcome) (s : Sys) :
      Reachable geo s → Reachable geo (onHeartbeat snap outcome s)

/-- The location pushes of an effect log, oldest first: the bodies
`(latitude, longitude, online)` of the `POST /driver/location` requests. -/
def locationPushes (log : List Effect) : List (Int × Int × Bool) :=
  log.filterMap fun e =>
    match e with
    | .fetchLocation latitude longitude online => some (latitude, longitude, online)
    | _ => none

/-- The browser's timer table read off the effect log: the closure last
registered by `setInterval` under `id`, unless `clearInterval id` came
after it. -/
def activeTimer (id : Nat) (log : List Effect) : Option State :=
  log.foldl (fun acc e =>
    match e with
    | .setInterval i closure => if i = id then some closure else acc
    | .clearInterval i => if i = id then none else acc
    | _ => acc) none

/-- The browser's watch table read off the effect log: the closure last
registered by `watchPosition` under `id`, unless `clearWatch id` came after
it. -/
def activeWatch (id : Nat) (log : List Effect) : Option State :=
  log.foldl (fun acc e =>
    match e with
    | .watchPosition i closure => if i = id then some closure else acc
    | .clearWatch i => if i = id then none else acc
    | _ => acc) none

/-- A tick of timer `id`: the browser runs the callback registered under
`id`, if the timer has not been cleared. -/
def tick (id : Nat) (outcome : FetchOutcome) (s : Sys) : Sys :=
  match activeTimer id s.log with
  | some closure => onHeartbeat closure outcome s
  | none => s

/-- A sample of watch `id`: the browser runs the success callback registered
under `id`, if the watch has not been cleared. -/
def sample (id : Nat) (pos : LatLng) (outcome : FetchOutcome) (s : Sys) : Sys :=
  match activeWatch id s.log with
  | some closure => onWatchPosition closure pos outcome s
  | none => s

/-- Scenario: the driver goes online from the first render; the presence
request succeeds, the watch gets id 7 and the heartbeat timer id 9. -/
def wentOnline : Sys :=
  handleOnlineToggle true initialState true .ok 7 9 initialSys

/-- Scenario: online as in `wentOnline`, the watch delivers `(1, 2)`, and the
driver goes offline from the render that shows that position. -/
def wentOffline : Sys :=
  handleOnlineToggle true (sample 7 (1, 2) .ok wentOnline).state false .ok 0 0
    (sample 7 (1, 2) .ok wentOnline)

/-- Scenario: from `wentOffline` the driver goes online again (watch id 11,
timer id 13), from the render that still shows `(1, 2)`. -/
def wentOnlineAgain : Sys :=
  handleOnlineToggle true wentOffline.state true .ok 11 13 wentOffline

/-- Scenario: the driver goes online twice in a row from the first render
(the automatic start of line 240 and a press of the button, both before the
next render); the second call overwrites the handles 7 and 9 of the first
with 11 and 13.  Then the driver goes offline. -/
def wentOnlineTwiceThenOffline : Sys :=
  handleOnlineToggle true
    (handleOnlineToggle true initialState true .ok 11 13 wentOnline).state false .ok 0 0
    (handleOnlineToggle true initialState true .ok 11 13 wentOnline)

/-- The `try` block of `updateDriverLocation` (lines 77-92): a rejected
`fetch` throws at line 77; a response without `ok` is logged at line 91. -/
def updateDriverLocationTry (snap : State) (latitude longitude : Int)
    (outcome : FetchOutcome) (s : Sys) : Completion Sys :=
  let s1 := emit (.fetchLocation latitude longitude snap.isOnline) s
  match outcome with
  | .ok => .normal s1
  | .notOk => .normal (emit (.consoleError "Failed to update location") s1)
  | .networkError => .threw s1

/-- `updateDriverLocation` (lines 75-96) with its `try` and its `catch`
(lines 93-95) kept apart. -/
def updateDriverLocationCall (snap : State) (latitude longitude : Int)
    (outcome : FetchOutcome) (s : Sys) : Completion Sys :=
  (updateDriverLocationTry snap latitude longitude outcome s).catchWith fun s1 =>
    .normal (emit (.consoleError "Error updating location:") s1)

/-- The `try` block of `updateOnlineStatus` (lines 101-114): a rejected
`fetch` throws at line 101, a response without `ok` at line 113. -/
def updateOnlineStatusTry (online : Bool) (outcome : FetchOutcome) (s : Sys) :
    Completion Sys :=
  let s1 := emit (.fetchOnline online) s
  match outcome with
  | .ok => .normal s1
  | .notOk => .threw s1
  | .networkError => .threw s1

/-- `updateOnlineStatus` (lines 99-118) with its `try` and its `catch`
(lines 115-117) kept apart. -/
def updateOnlineStatusCall (online : Bool) (outcome : FetchOutcome) (s : Sys) :
    Completion Sys :=
  (updateOnlineStatusTry online outcome s).catchWith fun s1 =>
    .normal (emit (.consoleError "Error updating online status:") s1)

/-- The number of requests to the back end in an effect log. -/
def fetchCount (log : List Effect) : Nat :=
  (log.filter fun e =>
    match e with
    | .fetchLocation _ _ _ => true
    | .fetchOnline _ => true
    | _ => false).length

/-- The presence pushes of an effect log, oldest first: the `online` flags of
the `POST /driver/online` requests. -/
def presencePushes (log : List Effect) : List Bool :=
  log.filterMap fun e =>
    match e with
    | .fetchOnline online => some online
    | _ => none

/-- The answers of the back end as the retry policy of the specification
sorts them: success, a permanent error (4xx), and the transient errors (5xx,
network failure). -/
inductive BackendOutcome where
  | success
  | permanentError
  | serverError
  | networkFailure
  deriving DecidableEq, Repr

/-- What `fetch` makes of an answer: 4xx and 5xx are responses without `ok`,
a network failure rejects the promise. -/
def BackendOutcome.toFetch : BackendOutcome → FetchOutcome
  | .success => .ok
  | .permanentError => .notOk
  | .serverError => .notOk
  | .networkFailure => .networkError

/-- The retry policy in the words of the specification: the number of
attempts made with `budget` attempts allowed, when the successive attempts
are answered by `outcomes`.  Success and a permanent error end the push, a
transient error is retried while the budget lasts. -/
def specAttempts : Nat → List BackendOutcome → Nat
  | 0, _ => 0
  | _, [] => 0
  | budget + 1, outcome :: rest =>
    match outcome with
    | .success => 1
    | .permanentError => 1
    | .serverError => 1 + specAttempts budget rest
    | .networkFailure => 1 + specAttempts budget rest

/-- The ranges of the data model of the specification, in micro-degrees:
latitude in [-90, 90] and longitude in [-180, 180]. -/
def inRange (pos : LatLng) : Bool :=
  decide (-90000000 ≤ pos.1) && decide (pos.1 ≤ 90000000) &&
    decide (-180000000 ≤ pos.2) && decide (pos.2 ≤ 180000000)

/-- Scenario: online as in `wentOnline`, and `handleOnlineToggle(true)` is
called again from the render that shows the driver online; the environment
hands out watch id 11 and timer id 13. -/
def wentOnlineWhileOnline : Sys :=
  handleOnlineToggle true wentOnline.state true .ok 11 13 wentOnline

/-- Scenario: the driver goes online from the first render in a browser
without `navigator.geolocation`. -/
def wentOnlineWithoutGeolocation : Sys :=
  handleOnlineToggle false initialState true .ok 7 9 initialSys

/-- Scenario: online as in `wentOnline`, and the first fix requested at
line 221 fails with `PERMISSION_DENIED`. -/
def wentOnlinePermissionDenied : Sys :=
  onCurrentPositionError .permissionDenied wentOnline

/-- `handleLogout` (lines 267-284).  The `try` block ends at the first throw;
the `catch` logs and then clears the session and navigates as well. -/
def handleLogout (geo : Bool) (outcome : FetchOutcome) (s : Sys) : Sys :=
  let tryBlock : Completion Sys :=
    (stopLocationTracking geo (updateOnlineStatus false outcome s)).andThen fun s1 =>
      .normal (emit (.navigate "/login")
        (emit (.removeItem "userData") (emit (.removeItem "authToken") s1)))
  match tryBlock with
  | .normal s1 => s1
  | .threw s1 =>
    emit (.navigate "/login")
      (emit (.removeItem "userData") (emit (.removeItem "authToken")
        (emit (.consoleError "Error during logout:") s1)))

/-- The calls of an effect log that clear the stored session or navigate,
oldest first. -/
def sessionEffects (log : List Effect) : List Effect :=
  log.filter fun e =>
    match e with
    | .removeItem _ => true
    | .navigate _ => true
    | _ => false

/-- `updateDriverLocation` up to the `await` of line 77: the request has been
handed to `fetch` and its answer is outstanding. -/
def updateDriverLocationIssue (snap : State) (latitude longitude : Int) (s : Sys) : Sys :=
  emit (.fetchLocation latitude longitude snap.isOnline) s

/-- The watch callback (lines 171-178) up to the same point. -/
def onWatchPositionIssue (snap : State) (pos : LatLng) (s : Sys) : Sys :=
  updateDriverLocationIssue snap pos.1 pos.2
    (setLocationError "" (setCurrentLocation (some (pos.1, pos.2)) s))

/-- A run of samples handled by the watch callback before any answer of the
back end has arrived. -/
def samplesIssued (snap : State) (samples : List LatLng) (s : Sys) : Sys :=
  samples.foldl (fun acc pos => onWatchPositionIssue snap pos acc) s

/-- The tasks of the specification's data model. -/
inductive SyncTask where
  | positionUpdate (latitude longitude : Int)
  | presenceUpdate (online : Bool)
  deriving DecidableEq, Repr

/-- Whether a task is a presence update. -/
def SyncTask.isPresence : SyncTask → Bool
  | .positionUpdate _ _ => false
  | .presenceUpdate _ => true

/-- The queue of the specification, in its words: at most 5 pending tasks;
a task enqueued on a full queue takes the place of the oldest task that is
not a presence update. -/
def specEnqueue (queue : List SyncTask) (task : SyncTask) : List SyncTask :=
  if queue.length < 5 then queue ++ [task]
  else queue.eraseP (fun t => !t.isPresence) ++ [task]

end DriverDashboard

namespace RiderDashboard

/-- An entry of the `rideTypes` table (lines 53-57). -/
structure RideType where
  id : String
  name : String
  icon : String
  pricePerKm : ℚ
  description : String
  deriving DecidableEq

/-- The rate table `rideTypes` (lines 53-57). -/
def rideTypes : List RideType :=
  [ { id := "standard", name := "Standard", icon := "bi-car-front", pricePerKm := 11 / 2,
      description := "Affordable everyday rides" },
    { id := "comfort", name := "Comfort", icon := "bi-car-front-fill", pricePerKm := 7,
      description := "Newer cars with extra comfort" },
    { id := "premier", name := "Premier", icon := "bi-star", pricePerKm := 9,
      description := "Premium luxury vehicles" } ]

/-- The object stored by `setEstimatedFare` (lines 120-125). -/
structure FareQuote where
  amount : ℚ
  distance : String
  duration : String
  currency : String
  deriving DecidableEq

/-- An entry of `nearbyDrivers` as the page renders it (lines 290-301). -/
structure NearbyDriver where
  name : String
  vehicle : String
  distance : String
  rating : String
  deriving DecidableEq

/-- The state variables of one render of `RiderDashboard` (lines 42-51);
`currentLocation` in micro-degrees. -/
structure State where
  sidebarOpen : Bool
  currentLocation : Int × Int
  pickupLocation : String
  destination : String
  rideType : String
  estimatedFare : Option FareQuote
  loading : Bool
  nearbyDrivers : List NearbyDriver
  showMap : Bool
  locationError : String
  deriving DecidableEq

/-- The fields of the signed-in user that `requestRide` reads. -/
structure User where
  email : String
  firstName : String
  lastName : String
  deriving DecidableEq

/-- The body `rideData` of the ride request (lines 136-147). -/
structure RideData where
  riderEmail : String
  riderName : String
  pickupLocation : String
  destination : String
  rideType : String
  estimatedFare : Option FareQuote
  riderLocation : Int × Int
  deriving DecidableEq

/-- Calls that leave the component. -/
inductive Effect where
  | alert (msg : String)
  /-- `POST /rider/request-ride` with body `rideData`. -/
  | fetchRequestRide (body : RideData)
  /-- `navigate(path, { state: { rideId } })`. -/
  | navigate (path : String) (rideId : Option String)
  /-- `navigator.geolocation.getCurrentPosition(...)` (line 74). -/
  | getCurrentPosition
  /-- `GET /rider/nearby-drivers?lat=..&lng=..` (line 101). -/
  | fetchNearbyDrivers (lat lng : Int)
  | consoleError (msg : String)
  deriving DecidableEq

/-- How the ride request ends: a rejected `fetch`, a response whose body is
not JSON (`response.json()` rejects), or a response with a JSON body. -/
inductive RideResponse where
  | networkError
  | invalidBody (ok : Bool)
  | json (ok : Bool) (rideId : Option String) (message : Option String)
  deriving DecidableEq

/-- The component instance: current state and effect log.  The handlers of
this page are invoked from the latest render, so they read `state`. -/
structure Sys where
  state : State
  log : List Effect
  deriving DecidableEq

/-- The state of the first render (lines 42-51). -/
def initialState : State :=
  { sidebarOpen := false, currentLocation := (-29310000, 27480000), pickupLocation := "",
    destination := "", rideType := "standard", estimatedFare := none, loading := false,
    nearbyDrivers := [], showMap := true, locationError := "" }

def emit (e : Effect) (s : Sys) : Sys :=
  { s with log := s.log ++ [e] }

def setLoading (b : Bool) (s : Sys) : Sys :=
  { s with state := { s.state with loading := b } }

def setEstimatedFare (q : Option FareQuote) (s : Sys) : Sys :=
  { s with state := { s.state with estimatedFare := q } }

/-- `x.toFixed(2)` read back by `parseFloat`: the integer `n` with `n / 100`
nearest to `x`, the larger `n` on a tie, the sign of a negative `x` being
set aside first (ECMA-262, Number.prototype.toFixed). -/
def toFixed2 (x : ℚ) : ℚ :=
  if x < 0 then -((⌊-x * 100 + 1 / 2⌋ : ℤ) : ℚ) / 100
  else ((⌊x * 100 + 1 / 2⌋ : ℤ) : ℚ) / 100

/-- `mockDistance` (line 116). -/
def mockDistance : ℚ := 17 / 2

/-- `calculateFare` (lines 113-126).  `rideTypes.find` yields `undefined` for
an id that is not in the table, and reading `pricePerKm` of it throws. -/
def calculateFare (s : Sys) : Completion Sys :=
  if s.state.pickupLocation = "" ∨ s.state.destination = "" then .normal s
  else
    match rideTypes.find? (fun ride => ride.id == s.state.rideType) with
    | none => .threw s
    | some selectedRide =>
      .normal (setEstimatedFare
        (some { amount := toFixed2 (mockDistance * selectedRide.pricePerKm),
                distance := "8.5 km", duration := "15 min", currency := "M" }) s)

/-- Lines 136-147 of `requestRide`. -/
def rideData (user : User) (st : State) : RideData :=
  { riderEmail := user.email,
    riderName := user.firstName ++ " " ++ user.lastName,
    pickupLocation := st.pickupLocation,
    destination := st.destination,
    rideType := st.rideType,
    estimatedFare := st.estimatedFare,
    riderLocation := (st.currentLocation.1, st.currentLocation.2) }

/-- The `try` block of `requestRide` (lines 135-165); a `threw` completion is
an exception reaching the `catch`.  With no user, `user.email` throws before
the request is made. -/
def requestRideBody (user : Option User) (resp : RideResponse) (s : Sys) : Completion Sys :=
  match user with
  | none => .threw s
  | some u =>
    let s1 := emit (.fetchRequestRide (rideData u s.state)) s
    match resp with
    | .networkError => .threw s1
    | .invalidBody _ => .threw s1
    | .json true rideId _ =>
      .normal (emit (.navigate "/rider/ride-tracking" rideId)
        (emit (.alert "Ride requested successfully! Looking for drivers...") s1))
    | .json false _ message =>
      match message with
      | some m => if m = "" then .normal (emit (.alert "Failed to request ride") s1)
                  else .normal (emit (.alert m) s1)
      | none => .normal (emit (.alert "Failed to request ride") s1)

/-- `requestRide` (lines 128-171). -/
def requestRide (user : Option User) (resp : RideResponse) (s : Sys) : Sys :=
  if s.state.pickupLocation = "" ∨ s.state.destination = "" then
    emit (.alert "Please enter both pickup and destination locations") s
  else
    let s1 := setLoading true s
    let s2 :=
      match requestRideBody user resp s1 with
      | .normal t => t
      | .threw t => emit (.alert "Network error. Please try again.") t
    setLoading false s2

/-- Rounding to two decimal places, half up, in the words of the
specification: the largest multiple of `1 / 100` that is at most
`x + 1 / 200`. -/
def roundHalfUp2 (x : ℚ) : ℚ :=
  ((⌊x * 100 + 1 / 2⌋ : ℤ) : ℚ) / 100

/-- The posted requests of an effect log, oldest first. -/
def rideRequests (log : List Effect) : List RideData :=
  log.filterMap fun e =>
    match e with
    | .fetchRequestRide body => some body
    | _ => none

/-- Scenario: the signed-in rider. -/
def lerato : User :=
  { email := "lerato@example.com", firstName := "Lerato", lastName := "Mokoena" }

/-- Scenario: a rider with both locations entered and the ride type of the
first render. -/
def readySys : Sys :=
  { state := { initialState with pickupLocation := "Current Location",
                                 destination := "Airport" },
    log := [] }

/-- `onChange` of the pickup field (line 327). -/
def setPickupLocation (v : String) (s : Sys) : Sys :=
  { s with state := { s.state with pickupLocation := v } }

/-- `onChange` of the destination field (line 354). -/
def setDestination (v : String) (s : Sys) : Sys :=
  { s with state := { s.state with destination := v } }

/-- `onClick` of a ride type card (line 368): `setRideType(ride.id)`. -/
def setRideType (id : String) (s : Sys) : Sys :=
  { s with state := { s.state with rideType := id } }

/-- `onBlur` of the destination field (line 356) runs `calculateFare`; an
exception it throws is caught by nobody and leaves the state as it is. -/
def onDestinationBlur (s : Sys) : Sys :=
  (calculateFare s).sys

/-- Scenario: from the first render the rider enters the pickup and the
destination and leaves the destination field, with the ride type
"standard" of the first render. -/
def quotedStandard : Sys :=
  onDestinationBlur (setDestination "Airport"
    (setPickupLocation "Current Location" { state := initialState, log := [] }))

/-- Scenario: after `quotedStandard` the rider clicks the card of the ride
type "premier". -/
def switchedToPremier : Sys :=
  setRideType "premier" quotedStandard

/-- `getCurrentLocation` (lines 71-97), up to the registration of the
request; `geo` says whether `navigator.geolocation` exists. -/
def getCurrentLocation (geo : Bool) (s : Sys) : Sys :=
  if geo then emit .getCurrentPosition (setLoading true s)
  else { s with state := { s.state with
           locationError := "Geolocation is not supported by this browser." } }

/-- The success callback of `getCurrentLocation` (lines 75-81). -/
def onCurrentPosition (pos : Int × Int) (s : Sys) : Sys :=
  { s with state := { s.state with currentLocation := (pos.1, pos.2),
                                   pickupLocation := "Current Location",
                                   locationError := "", loading := false } }

/-- The error callback of `getCurrentLocation` (lines 82-87). -/
def onCurrentPositionError (s : Sys) : Sys :=
  { emit (.consoleError "Error getting location:") s with
    state := { s.state with
      locationError := "Unable to get your location. Using default location.",
      currentLocation := (-29310000, 27480000), loading := false } }

/-- `loadNearbyDrivers` (lines 99-111); `answer` is the list of the response
when it has `ok` and a JSON body, `none` when the request is rejected or the
body is not JSON. -/
def loadNearbyDrivers (ok : Bool) (answer : Option (List NearbyDriver)) (s : Sys) : Sys :=
  let s1 := emit (.fetchNearbyDrivers s.state.currentLocation.1 s.state.currentLocation.2) s
  if ok then
    match answer with
    | some drivers => { s1 with state := { s1.state with nearbyDrivers := drivers } }
    | none => emit (.consoleError "Error loading nearby drivers:") s1
  else s1

/-- `toggleSidebar` (lines 173-175). -/
def toggleSidebar (s : Sys) : Sys :=
  { s with state := { s.state with sidebarOpen := !s.state.sidebarOpen } }

/-- `onClick` of the map button (line 260). -/
def toggleMap (s : Sys) : Sys :=
  { s with state := { s.state with showMap := !s.state.showMap } }

/-- `onClick` of the close button of the location alert (line 251). -/
def dismissLocationError (s : Sys) : Sys :=
  { s with state := { s.state with locationError := "" } }

/-- The systems the rider dashboard can be in: the freshly mounted one, and
what its event handlers and callbacks make of a reachable one.  A ride type
card exists for each entry of `rideTypes` and for nothing else (line 364). -/
inductive Reachable : Sys → Prop where
  | mount : Reachable { state := initialState, log := [] }
  | pickupChange (v : String) (s : Sys) : Reachable s → Reachable (setPickupLocation v s)
  | destinationChange (v : String) (s : Sys) : Reachable s → Reachable (setDestination v s)
  | rideTypeClick (ride : RideType) (s : Sys) :
      ride ∈ rideTypes → Reachable s → Reachable (setRideType ride.id s)
  | destinationBlur (s : Sys) : Reachable s → Reachable (onDestinationBlur s)
  | request (user : Option User) (resp : RideResponse) (s : Sys) :
      Reachable s → Reachable (requestRide user resp s)
  | locate (geo : Bool) (s : Sys) : Reachable s → Reachable (getCurrentLocation geo s)
  | located (pos : Int × Int) (s : Sys) : Reachable s → Reachable (onCurrentPosition pos s)
  | locateFailed (s : Sys) : Reachable s → Reachable (onCurrentPositionError s)
  | nearby (ok : Bool) (answer : Option (List NearbyDriver)) (s : Sys) :
      Reachable s → Reachable (loadNearbyDrivers ok answer s)
  | sidebar (s : Sys) : Reachable s → Reachable (toggleSidebar s)
  | map (s : Sys) : Reachable s → Reachable (toggleMap s)
  | dismiss (s : Sys) : Reachable s → Reachable (dismissLocationError s)

end RiderDashboard

/-- JavaScript `a || b` on strings that may be `undefined`: `b` when `a` is
`undefined` or empty. -/
def orElse (a : Option String) (b : String) : String :=
  match a with
  | none => b
  | some v => if v = "" then b else v

/-- The `length` of a JavaScript string: its number of UTF-16 code units, two
for a character beyond the basic plane. -/
def jsLength (s : String) : Nat :=
  (s.toList.map fun c => if c.toNat < 65536 then 1 else 2).sum

namespace AuthContext

/-- The user object the back end returns and `localStorage` keeps. -/
structure User where
  email : String
  firstName : String
  lastName : String
  role : Option String
  deriving DecidableEq, Repr

/-- The state variables of `AuthProvider` (lines 15-18). -/
structure State where
  user : Option User
  loading : Bool
  requires2FA : Bool
  pendingEmail : String
  deriving DecidableEq, Repr

/-- The two keys of `localStorage` the provider uses: `none` is an absent
key.  `userData` holds the text `JSON.stringify` gave, kept as the value it
encodes (`some none` for an `undefined` user). -/
structure Storage where
  authToken : Option String
  userData : Option (Option User)
  deriving DecidableEq, Repr

/-- Requests to the back end. -/
inductive Effect where
  /-- `POST /auth/login` with body `{email, password}`. -/
  | fetchLogin (email password : String)
  /-- `POST /auth/verify-2fa` with body `{email, code}`. -/
  | fetchVerify2FA (email code : String)
  deriving DecidableEq, Repr

/-- The provider: state, local storage and effect log. -/
structure Sys where
  state : State
  storage : Storage
  log : List Effect
  deriving DecidableEq, Repr

/-- The JSON body of an answer, as far as `login` and `verify2FA` read it. -/
structure ResponseData where
  message : Option String
  requires2FA : Bool
  token : Option String
  user : Option User
  deriving DecidableEq, Repr

/-- How a request ends: a rejected `fetch`, a body that is not JSON (both
with the message of the error thrown), or a JSON body. -/
inductive Response where
  | networkError (message : Option String)
  | invalidBody (ok : Bool) (message : Option String)
  | json (ok : Bool) (data : ResponseData)
  deriving DecidableEq, Repr

/-- What `login` and `verify2FA` return. -/
inductive AuthResult where
  /-- `{ requires2FA: true, message }`. -/
  | requires2FA (message : String)
  /-- `{ success: true, user }`. -/
  | success (user : Option User)
  deriving DecidableEq, Repr

/-- The provider before anybody has signed in. -/
def signedOut : Sys :=
  { state := { user := none, loading := false, requires2FA := false, pendingEmail := "" },
    storage := { authToken := none, userData := none },
    log := [] }

/-- Lines 53-56 and 80-83: the token and the user are stored and the user is
set. -/
def storeSession (data : ResponseData) (s : Sys) : Sys :=
  { s with
    storage := { authToken := some (data.token.getD "undefined"),
                 userData := some data.user },
    state := { s.state with user := data.user } }

/-- `login` (lines 30-61): the system it leaves, and the value it returns or
the message of the error it throws. -/
def login (email password : String) (resp : Response) (s : Sys) :
    Sys × Except String AuthResult :=
  let s1 := { s with log := s.log ++ [.fetchLogin email password] }
  match resp with
  | .networkError message => (s1, .error (orElse message "Login failed. Please try again."))
  | .invalidBody _ message => (s1, .error (orElse message "Login failed. Please try again."))
  | .json false data =>
    (s1, .error (orElse (some (orElse data.message "Login failed"))
      "Login failed. Please try again."))
  | .json true data =>
    if data.requires2FA then
      ({ s1 with state := { s1.state with requires2FA := true, pendingEmail := email } },
       .ok (.requires2FA "2FA code sent to your email"))
    else
      (storeSession data s1, .ok (.success data.user))

/-- `verify2FA` (lines 63-90). -/
def verify2FA (code : String) (resp : Response) (s : Sys) :
    Sys × Except String AuthResult :=
  let s1 := { s with log := s.log ++ [.fetchVerify2FA s.state.pendingEmail code] }
  match resp with
  | .networkError message => (s1, .error (orElse message "Invalid verification code"))
  | .invalidBody _ message => (s1, .error (orElse message "Invalid verification code"))
  | .json false data =>
    (s1, .error (orElse (some (orElse data.message "2FA verification failed"))
      "Invalid verification code"))
  | .json true data =>
    let s2 := storeSession data s1
    ({ s2 with state := { s2.state with requires2FA := false, pendingEmail := "" } },
     .ok (.success data.user))

end AuthContext

namespace Components

/-- What the component returns. -/
inductive Rendered where
  | spinner
  /-- `<Navigate to=.. />`. -/
  | navigate (path : String)
  | children
  deriving DecidableEq, Repr

/-- JavaScript truthiness of the `requiredRole` prop: absent and empty are
falsy. -/
def roleGiven (requiredRole : Option String) : Bool :=
  match requiredRole with
  | none => false
  | some r => r != ""

/-- `ProtectedRoute` (lines 5-27); `loading` and `user` come from `useAuth`. -/
def ProtectedRoute (loading : Bool) (user : Option AuthContext.User)
    (requiredRole : Option String) : Rendered :=
  if loading then .spinner
  else
    match user with
    | none => .navigate "/login"
    | some u =>
      if roleGiven requiredRole && u.role != requiredRole then .navigate "/"
      else .children

end Components

namespace Login

/-- The state variables of `Login` (lines 7-14). -/
structure State where
  email : String
  password : String
  twoFACode : String
  loading : Bool
  error : String
  message : String
  deriving DecidableEq, Repr

/-- The class `[0-9]`, whose complement is the `\D` of line 224. -/
def isAsciiDigit (c : Char) : Bool :=
  decide (48 ≤ c.toNat ∧ c.toNat ≤ 57)

/-- `value.replace(/\D/g, '').slice(0, 6)` (line 224).  What is left after
the replacement is made of digits, one UTF-16 code unit each, so the slice
keeps the first six characters. -/
def sanitizeCode (value : String) : String :=
  String.mk ((value.toList.filter isAsciiDigit).take 6)

/-- The `onChange` handler of the code field (lines 222-227). -/
def onCodeChange (value : String) (st : State) : State :=
  let st1 := { st with twoFACode := sanitizeCode value }
  if st.error ≠ "" then { st1 with error := "" } else st1

end Login

namespace ForgotPassword

/-- The `formData` state variable (lines 6-11). -/
structure FormData where
  email : String
  code : String
  newPassword : String
  confirmPassword : String
  deriving DecidableEq, Repr

/-- The state variables of `ForgotPassword` (lines 5-14); `error` is `none`
when it holds `undefined`. -/
structure State where
  step : Nat
  formData : FormData
  loading : Bool
  error : Option String
  message : String
  deriving DecidableEq, Repr

/-- Calls that leave the component. -/
inductive Effect where
  /-- `POST /api/auth/reset-password` with body `{email, code, newPassword}`. -/
  | fetchResetPassword (email code newPassword : String)
  /-- `setTimeout(() => navigate(path), delay)`. -/
  | navigateAfter (path : String) (delay : Nat)
  deriving DecidableEq, Repr

/-- How the request ends: a rejected `fetch`, a body that is not JSON, or a
JSON body with its `message`. -/
inductive Response where
  | networkError
  | invalidBody (ok : Bool)
  | json (ok : Bool) (message : Option String)
  deriving DecidableEq, Repr

/-- The component instance: current state and effect log. -/
structure Sys where
  state : State
  log : List Effect
  deriving DecidableEq, Repr

def setError (e : Option String) (s : Sys) : Sys :=
  { s with state := { s.state with error := e } }

def setLoading (b : Bool) (s : Sys) : Sys :=
  { s with state := { s.state with loading := b } }

def setMessage (m : String) (s : Sys) : Sys :=
  { s with state := { s.state with message := m } }

/-- The `try` block of `handleResetPassword` (lines 106-127); a `threw`
completion is an exception reaching the `catch`. -/
def resetPasswordBody (form : FormData) (resp : Response) (s : Sys) : Completion Sys :=
  let s1 := { s with log := s.log ++
    [.fetchResetPassword form.email form.code form.newPassword] }
  match resp with
  | .networkError => .threw s1
  | .invalidBody _ => .threw s1
  | .json true _ =>
    let s2 := setMessage "Password reset successfully! Redirecting to login..." s1
    .normal { s2 with log := s2.log ++ [.navigateAfter "/login" 2000] }
  | .json false message => .normal (setError message s1)

/-- `handleResetPassword` (lines 89-133). -/
def handleResetPassword (resp : Response) (s : Sys) : Sys :=
  let form := s.state.formData
  let s1 := setError (some "") s
  if form.newPassword ≠ form.confirmPassword then
    setError (some "Passwords do not match") s1
  else if jsLength form.newPassword < 6 then
    setError (some "Password must be at least 6 characters") s1
  else
    let s2 := setLoading true s1
    let s3 :=
      match resetPasswordBody form resp s2 with
      | .normal t => t
      | .threw t => setError (some "Failed to reset password. Please try again.") t
    setLoading false s3

/-- The reset requests of an effect log, oldest first. -/
def resetRequests (log : List Effect) : List (String × String × String) :=
  log.filterMap fun e =>
    match e with
    | .fetchResetPassword email code newPassword => some (email, code, newPassword)
    | _ => none

/-- Scenario: the form at step 3 with a code and two equal passwords of eight
characters. -/
def filledForm : Sys :=
  { state := { step := 3,
               formData := { email := "lerato@example.com", code := "123456",
                             newPassword := "maseru26", confirmPassword := "maseru26" },
               loading := false, error := some "", message := "" },
    log := [] }

end ForgotPassword

namespace RiderPaymentMethods

/-- An entry of `paymentMethods`. -/
structure PaymentMethod where
  type : String
  provider : String
  phoneNumber : String
  accountName : String
  id : String
  isPrimary : Bool
  deriving DecidableEq, Repr

/-- The `newPaymentMethod` state variable (lines 14-19). -/
structure NewPaymentMethod where
  type : String
  provider : String
  phoneNumber : String
  accountName : String
  deriving DecidableEq, Repr

/-- The state variables of `RiderPaymentMethods` (lines 10-19). -/
structure State where
  paymentMethods : List PaymentMethod
  loading : Bool
  sidebarOpen : Bool
  showAddForm : Bool
  newPaymentMethod : NewPaymentMethod
  deriving DecidableEq, Repr

/-- The body `updatedProfile` of the `PUT`: the fields of the fetched
profile other than `paymentMethods` and `email`, which are overwritten. -/
structure ProfileBody where
  rest : List (String × String)
  paymentMethods : List PaymentMethod
  email : String
  deriving DecidableEq, Repr

/-- Calls that leave the component. -/
inductive Effect where
  | alert (msg : String)
  | consoleError (msg : String)
  /-- `GET /rider/profile?email=..`. -/
  | fetchProfile (email : String)
  /-- `PUT /rider/profile` with body `updatedProfile`. -/
  | putProfile (body : ProfileBody)
  deriving DecidableEq, Repr

/-- How the `GET` of the profile ends: a rejected `fetch`, a response without
`ok`, an `ok` response whose body is not JSON, or the profile. -/
inductive GetOutcome where
  | networkError
  | notOk
  | invalidBody
  | ok (rest : List (String × String))
  deriving DecidableEq, Repr

/-- How the `PUT` ends: a rejected `fetch`, a response with `ok`, or one
without; `body` is `none` when the body of the latter is not JSON, and else
holds its `message`. -/
inductive PutOutcome where
  | networkError
  | ok
  | notOk (body : Option (Option String))
  deriving DecidableEq, Repr

/-- The component instance: current state and effect log.  The handlers are
invoked from the latest render, so they read `state`. -/
structure Sys where
  state : State
  log : List Effect
  deriving DecidableEq, Repr

def emit (e : Effect) (s : Sys) : Sys :=
  { s with log := s.log ++ [e] }

def setLoading (b : Bool) (s : Sys) : Sys :=
  { s with state := { s.state with loading := b } }

def setPaymentMethods (l : List PaymentMethod) (s : Sys) : Sys :=
  { s with state := { s.state with paymentMethods := l } }

/-- The state of the first render (lines 10-19). -/
def initialState : State :=
  { paymentMethods := [], loading := false, sidebarOpen := false, showAddForm := false,
    newPaymentMethod := { type := "mobile_money", provider := "M-Pesa", phoneNumber := "",
                          accountName := "" } }

/-- Lines 56-75 of `addPaymentMethod`, and the same text at lines 106-124 and
150-167: the profile is fetched and put back with the updated methods.  A
`normal` completion has received the answer of the `PUT`; a `threw`
completion is an exception on the way (with no user, `user.email` throws). -/
def sendProfile (user : Option RiderDashboard.User) (updated : List PaymentMethod)
    (get : GetOutcome) (put : PutOutcome) (s : Sys) : Completion Sys :=
  match user with
  | none => .threw s
  | some u =>
    let s1 := emit (.fetchProfile u.email) s
    let rest : Option (List (String × String)) :=
      match get with
      | .networkError => none
      | .invalidBody => none
      | .notOk => some []
      | .ok fields => some fields
    match rest with
    | none => .threw s1
    | some fields =>
      let s2 := emit (.putProfile { rest := fields, paymentMethods := updated,
                                    email := u.email }) s1
      match put with
      | .networkError => .threw s2
      | _ => .normal s2

/-- Lines 48-53 of `addPaymentMethod`: the list `updatedMethods`; `now` is
the value of `Date.now()`. -/
def updatedMethodsAdd (now : Nat) (st : State) : List PaymentMethod :=
  st.paymentMethods ++
    [{ type := st.newPaymentMethod.type, provider := st.newPaymentMethod.provider,
       phoneNumber := st.newPaymentMethod.phoneNumber,
       accountName := st.newPaymentMethod.accountName,
       id := toString now,
       isPrimary := st.paymentMethods.length == 0 }]

/-- The `try` block of `addPaymentMethod` (lines 47-92). -/
def addPaymentMethodBody (now : Nat) (user : Option RiderDashboard.User) (get : GetOutcome)
    (put : PutOutcome) (s : Sys) : Completion Sys :=
  let updated := updatedMethodsAdd now s.state
  (sendProfile user updated get put s).andThen fun s1 =>
    match put with
    | .ok =>
      .normal (emit (.alert "Payment method added successfully!")
        { s1 with state := { s1.state with
            paymentMethods := updated, showAddForm := false,
            newPaymentMethod := { type := "mobile_money", provider := "M-Pesa",
                                  phoneNumber := "", accountName := "" } } })
    | .notOk (some message) =>
      .normal (emit (.alert ("Failed to add payment method: " ++
        orElse message "Unknown error")) s1)
    | .notOk none => .threw s1
    | .networkError => .threw s1

/-- `addPaymentMethod` (lines 41-99). -/
def addPaymentMethod (now : Nat) (user : Option RiderDashboard.User) (get : GetOutcome)
    (put : PutOutcome) (s : Sys) : Sys :=
  if s.state.newPaymentMethod.phoneNumber = "" ∨ s.state.newPaymentMethod.accountName = ""
  then emit (.alert "Please fill in all required fields") s
  else
    let s1 := setLoading true s
    let s2 :=
      match addPaymentMethodBody now user get put s1 with
      | .normal t => t
      | .threw t =>
        emit (.alert "Failed to add payment method. Please try again.")
          (emit (.consoleError "Error adding payment method:") t)
    setLoading false s2

/-- `removePaymentMethod` (lines 101-138). -/
def removePaymentMethod (methodId : String) (user : Option RiderDashboard.User)
    (get : GetOutcome) (put : PutOutcome) (s : Sys) : Sys :=
  let updated := s.state.paymentMethods.filter fun method => method.id != methodId
  match sendProfile user updated get put s with
  | .normal s1 =>
    match put with
    | .ok => emit (.alert "Payment method removed successfully!") (setPaymentMethods updated s1)
    | _ => emit (.alert "Failed to remove payment method") s1
  | .threw s1 =>
    emit (.alert "Failed to remove payment method. Please try again.")
      (emit (.consoleError "Error removing payment method:") s1)

/-- `setPrimaryPaymentMethod` (lines 140-179). -/
def setPrimaryPaymentMethod (methodId : String) (user : Option RiderDashboard.User)
    (get : GetOutcome) (put : PutOutcome) (s : Sys) : Sys :=
  let updated := s.state.paymentMethods.map fun method =>
    { method with isPrimary := method.id == methodId }
  match sendProfile user updated get put s with
  | .normal s1 =>
    match put with
    | .ok => emit (.alert "Primary payment method updated!") (setPaymentMethods updated s1)
    | _ => emit (.alert "Failed to update primary payment method") s1
  | .threw s1 =>
    emit (.alert "Failed to update primary payment method. Please try again.")
      (emit (.consoleError "Error setting primary payment method:") s1)

/-- The number of primary entries of a list. -/
def primaryCount (l : List PaymentMethod) : Nat :=
  l.countP fun method => method.isPrimary

end RiderPaymentMethods

namespace RiderPaymentMethods

/-- Scenario: two methods stored, the first of them primary. -/
def twoMethods : Sys :=
  { state := { initialState with
      paymentMethods :=
        [{ type := "mobile_money", provider := "M-Pesa", phoneNumber := "+266 5800 0000",
           accountName := "Lerato Mokoena", id := "1", isPrimary := true },
         { type := "mobile_money", provider := "EcoCash", phoneNumber := "+266 6200 0000",
           accountName := "Lerato Mokoena", id := "2", isPrimary := false }] },
    log := [] }

end RiderPaymentMethods

/-! JavaScript numbers.  `calculateStats` adds, divides, multiplies and rounds
in IEEE 754 binary64 arithmetic, modelled here for finite values: an
operation yields the exact result rounded to 53 significant bits, a tie to
the even neighbour.  Overflow, subnormal results, `NaN`, the infinities and
the sign of zero are outside the model. -/

namespace Binary64

/-- A finite number: the value `m * 2 ^ e`. -/
structure Num where
  m : Int
  e : Int
  deriving DecidableEq, Repr

def bitLengthAux : Nat → Nat → Nat
  | 0, _ => 0
  | fuel + 1, n => if n = 0 then 0 else bitLengthAux fuel (n / 2) + 1

/-- The number of binary digits of `n`. -/
def bitLength (n : Nat) : Nat :=
  bitLengthAux n n

/-- The integer nearest to `n / 2 ^ shift`, the even one on a tie. -/
def roundShift (n shift : Nat) : Nat :=
  let q := n / 2 ^ shift
  let r := n % 2 ^ shift
  let half := 2 ^ (shift - 1)
  if half < r ∨ (r = half ∧ q % 2 = 1) then q + 1 else q

/-- The exact value `m * 2 ^ e` rounded to 53 significant bits. -/
def round53 (m e : Int) : Num :=
  let n := m.natAbs
  let len := bitLength n
  if n = 0 then ⟨0, 0⟩
  else if len ≤ 53 then ⟨m, e⟩
  else
    let shift := len - 53
    let q : Int := roundShift n shift
    ⟨if m < 0 then -q else q, e + shift⟩

/-- The sum of two numbers, not rounded. -/
def exactAdd (a b : Num) : Num :=
  let e := min a.e b.e
  ⟨a.m * 2 ^ (a.e - e).toNat + b.m * 2 ^ (b.e - e).toNat, e⟩

/-- `a + b`. -/
def add (a b : Num) : Num :=
  round53 (exactAdd a b).m (exactAdd a b).e

/-- `a * b`. -/
def mul (a b : Num) : Num :=
  round53 (a.m * b.m) (a.e + b.e)

/-- `a / b` for `b` other than zero: the quotient is taken to 56 bits or
more, with one more bit that says whether anything was left, and rounded. -/
def div (a b : Num) : Num :=
  let na := a.m.natAbs
  let nb := b.m.natAbs
  if nb = 0 then ⟨0, 0⟩
  else
    let k := 55 + bitLength nb
    let q := na * 2 ^ k / nb
    let sticky := if na * 2 ^ k % nb = 0 then 0 else 1
    let n : Int := (2 * q + sticky : Nat)
    round53 (if decide (a.m < 0) = decide (b.m < 0) then n else -n) (a.e - b.e - k - 1)

/-- `Math.round(x)`: the integer nearest to `x`, the larger one on a tie. -/
def mathRound (x : Num) : Num :=
  if 0 ≤ x.e then x
  else
    let d : Int := 2 ^ (-x.e).toNat
    round53 ((2 * x.m + d) / (2 * d)) 0

/-- The number an integer below `2 ^ 53` is. -/
def ofNat (n : Nat) : Num :=
  round53 n 0

/-- The number a decimal literal with the value `num / den` denotes. -/
def decimal (num den : Nat) : Num :=
  div (ofNat num) (ofNat den)

/-- Whether two numbers have the same value. -/
def sameValue (a b : Num) : Bool :=
  let e := min a.e b.e
  a.m * 2 ^ (a.e - e).toNat == b.m * 2 ^ (b.e - e).toNat

end Binary64

namespace DriverTrips

/-- A trip, as far as `calculateStats` reads it; `rating` is `none` when the
trip has none. -/
structure Trip where
  tripId : String
  status : String
  fare : Binary64.Num
  rating : Option Binary64.Num
  deriving DecidableEq, Repr

/-- The `stats` state variable (lines 15-21). -/
structure Stats where
  totalTrips : Nat
  completedTrips : Nat
  cancelledTrips : Nat
  totalEarnings : Binary64.Num
  averageRating : Binary64.Num
  deriving DecidableEq, Repr

/-- `trip.rating || 0` (line 155): 0 for a missing rating and for a rating
of 0. -/
def ratingOrZero (trip : Trip) : Binary64.Num :=
  match trip.rating with
  | none => ⟨0, 0⟩
  | some r => if r.m = 0 then ⟨0, 0⟩ else r

/-- `calculateStats` (lines 150-165): the object handed to `setStats`. -/
def calculateStats (trips : List Trip) : Stats :=
  let completed := trips.filter fun trip => trip.status == "completed"
  let cancelled := trips.filter fun trip => trip.status == "cancelled"
  let totalEarnings := completed.foldl (fun sum trip => Binary64.add sum trip.fare) ⟨0, 0⟩
  let averageRating : Binary64.Num :=
    if completed.length > 0 then
      Binary64.div
        (completed.foldl (fun sum trip => Binary64.add sum (ratingOrZero trip)) ⟨0, 0⟩)
        (Binary64.ofNat completed.length)
    else ⟨0, 0⟩
  { totalTrips := trips.length,
    completedTrips := completed.length,
    cancelledTrips := cancelled.length,
    totalEarnings := totalEarnings,
    averageRating :=
      Binary64.div (Binary64.mathRound (Binary64.mul averageRating (Binary64.ofNat 10)))
        (Binary64.ofNat 10) }

/-- Scenario: the trips of `loadMockTrips` (lines 71-147). -/
def mockTrips : List Trip :=
  [ { tripId := "TRIP_001", status := "completed", fare := Binary64.decimal 4550 100,
      rating := some (Binary64.ofNat 5) },
    { tripId := "TRIP_002", status := "completed", fare := Binary64.ofNat 65,
      rating := some (Binary64.ofNat 4) },
    { tripId := "TRIP_003", status := "completed", fare := Binary64.ofNat 35,
      rating := some (Binary64.ofNat 5) },
    { tripId := "TRIP_004", status := "completed", fare := Binary64.ofNat 42,
      rating := some (Binary64.ofNat 4) },
    { tripId := "TRIP_005", status := "cancelled", fare := Binary64.ofNat 55,
      rating := none } ]

/-- Scenario: two completed trips with the fares 0.1 and 0.2. -/
def smallFares : List Trip :=
  [ { tripId := "TRIP_A", status := "completed", fare := Binary64.decimal 1 10,
      rating := some (Binary64.ofNat 5) },
    { tripId := "TRIP_B", status := "completed", fare := Binary64.decimal 2 10,
      rating := some (Binary64.ofNat 4) } ]

/-- Scenario: two completed trips with the ratings 4.3 and 4.6. -/
def fractionalRatings : List Trip :=
  [ { tripId := "TRIP_A", status := "completed", fare := Binary64.ofNat 35,
      rating := some (Binary64.decimal 43 10) },
    { tripId := "TRIP_B", status := "completed", fare := Binary64.ofNat 42,
      rating := some (Binary64.decimal 46 10) } ]

end DriverTrips

/-! ## Driver dashboard: presence and the tracking loop -/

namespace DriverDashboard

theorem consistent_initialSys (geo : Bool) : Consistent geo initialSys := by
  intro _; rfl

theorem consistent_startLocationTracking (geo : Bool) (snap : State) (w t : Nat) (s : Sys)
    (h : Consistent geo s) : Consistent geo (startLocationTracking geo snap w t s) := by
  intro hg
  have := h hg
  subst hg
  simpa [startLocationTracking, setLocationError] using this

theorem consistent_stopLocationTracking (geo : Bool) (s : Sys) (h : Consistent geo s) :
    Consistent geo (stopLocationTracking geo s).sys := by
  intro hg
  have hs := h hg
  subst hg
  unfold stopLocationTracking stopWatch
  rcases hw : s.watchIdRef with _ | id
  · simp [Completion.andThen, Completion.sys, setIsTracking, stopTimer]
    split <;> [skip; split] <;> simp [hw, emit, truthy]
  · have hid : id = 0 := by simpa [hw, truthy] using hs
    subst hid
    simp [Completion.andThen, Completion.sys, setIsTracking, stopTimer]
    split <;> [skip; split] <;> simp [hw, emit, truthy]

theorem consistent_handleOnlineToggle (geo : Bool) (snap : State) (online : Bool)
    (outcome : FetchOutcome) (w t : Nat) (s : Sys) (h : Consistent geo s) :
    Consistent geo (handleOnlineToggle geo snap online outcome w t s) := by
  intro hg
  have hs := h hg
  subst hg
  cases online
  · have h3 : Consistent false
        (setIsOnline false (updateOnlineStatus false outcome (setLoading true s))) := by
      intro _
      cases outcome <;> simpa [setIsOnline, updateOnlineStatus, setLoading, emit] using hs
    have h4 := consistent_stopLocationTracking false _ h3 rfl
    simp only [handleOnlineToggle, Bool.false_eq_true, if_false]
    generalize stopLocationTracking false
        (setIsOnline false (updateOnlineStatus false outcome (setLoading true s))) = c at h4 ⊢
    cases c <;> simpa [Completion.sys, setLoading, emit] using h4
  · cases outcome <;>
      simpa [handleOnlineToggle, startLocationTracking, getCurrentLocation, setIsOnline,
        updateOnlineStatus, setLoading, setLocationError, emit] using hs

/-- After `stopLocationTracking` has completed normally, tracking is off. -/
theorem stopLocationTracking_normal_isTracking (geo : Bool) (s s1 : Sys)
    (h : stopLocationTracking geo s = .normal s1) :
    s1.state.isTracking = false ∧ s1.state.isOnline = s.state.isOnline := by
  unfold stopLocationTracking stopWatch at h
  rcases hw : s.watchIdRef with _ | id
  · simp only [hw, Completion.andThen, Completion.normal.injEq] at h
    subst h
    simp only [setIsTracking, stopTimer, true_and]
    split <;> [skip; split] <;> simp [emit]
  · simp only [hw] at h
    by_cases hid : id = 0
    · simp only [hid, if_true, Completion.andThen, Completion.normal.injEq] at h
      subst h
      simp only [setIsTracking, stopTimer, true_and]
      split <;> [skip; split] <;> simp [emit]
    · cases geo
      · simp [hid, Completion.andThen] at h
      · simp only [hid, if_false, if_true, Completion.andThen, Completion.normal.injEq] at h
        subst h
        simp only [setIsTracking, stopTimer, true_and]
        split <;> [skip; split] <;> simp [emit]

/-- In a consistent system `stopLocationTracking` does not throw. -/
theorem stopLocationTracking_normal (geo : Bool) (s : Sys) (h : Consistent geo s) :
    ∃ s1, stopLocationTracking geo s = .normal s1 := by
  unfold stopLocationTracking stopWatch
  rcases hw : s.watchIdRef with _ | id
  · exact ⟨_, rfl⟩
  · by_cases hid : id = 0
    · simp [hid, Completion.andThen]
    · cases geo
      · have := h rfl
        simp [hw, truthy, hid] at this
      · simp [hid, Completion.andThen]

/-- C1. Going offline always ends Offline: whatever the render that issued the
call, whatever the back end answers to the presence request (ok, not ok,
network error) and whatever ids the environment hands out,
`handleOnlineToggle(false)` finishes with `isOnline`, `isTracking` and
`loading` all false, in every system whose watch id was stored by
`startLocationTracking`. -/
theorem handleOnlineToggle_offline_ends_offline (geo : Bool) (snap : State)
    (outcome : FetchOutcome) (w t : Nat) (s : Sys) (h : Consistent geo s) :
    (handleOnlineToggle geo snap false outcome w t s).state.isOnline = false ∧
    (handleOnlineToggle geo snap false outcome w t s).state.isTracking = false ∧
    (handleOnlineToggle geo snap false outcome w t s).state.loading = false := by
  have h3 : Consistent geo
      (setIsOnline false (updateOnlineStatus false outcome (setLoading true s))) := by
    intro hg
    have := h hg
    cases outcome <;> simpa [setIsOnline, updateOnlineStatus, setLoading, emit] using this
  obtain ⟨s1, hs1⟩ := stopLocationTracking_normal geo _ h3
  obtain ⟨ht, ho⟩ := stopLocationTracking_normal_isTracking geo _ s1 hs1
  simp only [handleOnlineToggle, Bool.false_eq_true, if_false, hs1]
  refine ⟨?_, ?_, ?_⟩
  · simpa [setLoading, setIsOnline] using ho
  · simpa [setLoading] using ht
  · simp [setLoading]

theorem handleOnlineToggle_offline_ends_offline_witness :
    Consistent true (handleOnlineToggle true initialState true .ok 7 9 initialSys) ∧
    (handleOnlineToggle true initialState false .networkError 8 10
      (handleOnlineToggle true initialState true .ok 7 9 initialSys)).state.isOnline = false ∧
    (handleOnlineToggle true initialState false .networkError 8 10
      (handleOnlineToggle true initialState true .ok 7 9 initialSys)).state.isTracking = false ∧
    (handleOnlineToggle true initialState false .networkError 8 10
      (handleOnlineToggle true initialState true .ok 7 9 initialSys)).state.loading = false :=
  ⟨fun hg => absurd hg (by decide),
   handleOnlineToggle_offline_ends_offline true initialState .networkError 8 10
     (handleOnlineToggle true initialState true .ok 7 9 initialSys)
     (fun hg => absurd hg (by decide))⟩

/-- Whatever the back end answers, `handleOnlineToggle(true)` ends with
`isOnline` set and `loading` cleared; where `navigator.geolocation` exists it
also registers the watch and the timer. -/
theorem handleOnlineToggle_online_any_outcome (geo : Bool) (snap : State)
    (outcome : FetchOutcome) (w t : Nat) (s : Sys) :
    (handleOnlineToggle geo snap true outcome w t s).state.isOnline = true ∧
    (handleOnlineToggle geo snap true outcome w t s).state.loading = false ∧
    (geo = true →
      (handleOnlineToggle geo snap true outcome w t s).state.isTracking = true ∧
      (handleOnlineToggle geo snap true outcome w t s).watchIdRef = some w ∧
      (handleOnlineToggle geo snap true outcome w t s).locationUpdateInterval = some t) := by
  cases geo <;> cases outcome <;>
    simp [handleOnlineToggle, startLocationTracking, getCurrentLocation, setIsOnline,
      updateOnlineStatus, setLoading, setLocationError, setIsTracking, emit]

/-- C2. From the freshly mounted (Offline) dashboard, `handleOnlineToggle(true)`
whose presence request is answered without `ok` still ends Online: the
exception thrown at line 113 is caught at line 115 inside `updateOnlineStatus`,
so line 218 runs, the watch and the heartbeat are registered, and the only
trace of the failure is a console message. -/
theorem handleOnlineToggle_online_ignores_failure :
    handleOnlineToggle true initialState true .notOk 7 9 initialSys =
      { state := { initialState with isOnline := true, isTracking := true },
        watchIdRef := some 7,
        locationUpdateInterval := some 9,
        log := [.fetchOnline true, .consoleError "Error updating online status:",
                .getCurrentPosition initialState, .watchPosition 7 initialState,
                .setInterval 9 initialState] } := by
  decide

/-- C6. `stopLocationTracking` is idempotent: running it again after it has
run changes nothing, effect log included.  On a system without handles, the
freshly mounted one among them, it completes normally, clears nothing and
leaves both handles null and `isTracking` false. -/
theorem stopLocationTracking_idempotent (geo : Bool) (s : Sys) (st : State)
    (log : List Effect) :
    (stopLocationTracking geo s).andThen (stopLocationTracking geo)
      = stopLocationTracking geo s ∧
    stopLocationTracking geo initialSys = .normal initialSys ∧
    stopLocationTracking geo
        { state := st, watchIdRef := none, locationUpdateInterval := none, log := log }
      = .normal { state := { st with isTracking := false }, watchIdRef := none,
                  locationUpdateInterval := none, log := log } := by
  refine ⟨?_, rfl, rfl⟩
  obtain ⟨st0, wr, tr, lg⟩ := s
  rcases wr with _ | w <;> rcases tr with _ | t
  · rfl
  · by_cases ht : t = 0 <;>
      simp [stopLocationTracking, stopWatch, stopTimer, Completion.andThen, setIsTracking,
        emit, ht]
  · by_cases hw : w = 0 <;> cases geo <;>
      simp [stopLocationTracking, stopWatch, stopTimer, Completion.andThen, setIsTracking,
        emit, hw]
  · by_cases hw : w = 0 <;> by_cases ht : t = 0 <;> cases geo <;>
      simp [stopLocationTracking, stopWatch, stopTimer, Completion.andThen, setIsTracking,
        emit, hw, ht]

/-- C7. Stopping cancels what was started.  With `navigator.geolocation`
present and the ids handed out by `watchPosition` and `setInterval` positive
(as the platform hands them out), `stopLocationTracking` after
`startLocationTracking` completes normally, has called `clearWatch` on the
watch id and `clearInterval` on the timer id, and leaves both handles null,
so that neither the watch nor the timer is registered any more; the same
holds from any system that holds the two handles. -/
theorem stopLocationTracking_cancels (snap st : State) (w t : Nat) (s : Sys)
    (log : List Effect) (hw : 0 < w) (ht : 0 < t) :
    stopLocationTracking true (startLocationTracking true snap w t s)
      = .normal { state := { s.state with isTracking := false }, watchIdRef := none,
                  locationUpdateInterval := none,
                  log := s.log ++ [.watchPosition w snap, .setInterval t snap,
                                   .clearWatch w, .clearInterval t] } ∧
    stopLocationTracking true
        { state := st, watchIdRef := some w, locationUpdateInterval := some t, log := log }
      = .normal { state := { st with isTracking := false }, watchIdRef := none,
                  locationUpdateInterval := none,
                  log := log ++ [.clearWatch w, .clearInterval t] } ∧
    activeWatch w (log ++ [.clearWatch w, .clearInterval t]) = none ∧
    activeTimer t (log ++ [.clearWatch w, .clearInterval t]) = none := by
  have hw0 : w ≠ 0 := Nat.pos_iff_ne_zero.mp hw
  have ht0 : t ≠ 0 := Nat.pos_iff_ne_zero.mp ht
  refine ⟨?_, ?_, ?_, ?_⟩
  · simp [stopLocationTracking, startLocationTracking, stopWatch, stopTimer,
      Completion.andThen, setIsTracking, emit, hw0, ht0]
  · simp [stopLocationTracking, stopWatch, stopTimer, Completion.andThen, setIsTracking,
      emit, hw0, ht0]
  · simp [activeWatch, List.foldl_append]
  · simp [activeTimer, List.foldl_append]

theorem stopLocationTracking_cancels_witness :
    0 < 7 ∧ 0 < 9 ∧
    stopLocationTracking true (startLocationTracking true initialState 7 9 initialSys)
      = .normal { state := { initialSys.state with isTracking := false }, watchIdRef := none,
                  locationUpdateInterval := none,
                  log := initialSys.log ++ [.watchPosition 7 initialState,
                    .setInterval 9 initialState, .clearWatch 7, .clearInterval 9] } :=
  ⟨by decide, by decide,
   (stopLocationTracking_cancels initialState initialState 7 9 initialSys []
     (by decide) (by decide)).1⟩

/-- What the watch callback does to any system: the position is stored, the
location error is cleared, one request is posted, and nothing else of the
state or the handles changes. -/
theorem onWatchPosition_spec (snap : State) (pos : LatLng) (outcome : FetchOutcome) (s : Sys) :
    (onWatchPosition snap pos outcome s).state
      = { s.state with currentLocation := some pos, locationError := "" } ∧
    (onWatchPosition snap pos outcome s).watchIdRef = s.watchIdRef ∧
    (onWatchPosition snap pos outcome s).locationUpdateInterval = s.locationUpdateInterval ∧
    locationPushes (onWatchPosition snap pos outcome s).log
      = locationPushes s.log ++ [(pos.1, pos.2, snap.isOnline)] := by
  cases outcome <;>
    simp [onWatchPosition, updateDriverLocation, setCurrentLocation, setLocationError, emit,
      locationPushes, List.filterMap_append]

/-- Every reachable system is consistent. -/
theorem reachable_consistent (geo : Bool) (s : Sys) (h : Reachable geo s) :
    Consistent geo s := by
  induction h with
  | mount => exact consistent_initialSys geo
  | toggle snap online outcome w t s _ ih =>
    exact consistent_handleOnlineToggle geo snap online outcome w t s ih
  | locate snap s _ ih =>
    intro hg
    have := ih hg
    cases geo <;> simpa [getCurrentLocation, setLocationError, emit] using this
  | fix snap pos outcome s _ ih =>
    intro hg
    have := ih hg
    cases hs : snap.isOnline <;> cases outcome <;>
      simpa [onCurrentPosition, updateDriverLocation, setCurrentLocation, setLocationError,
        emit, hs] using this
  | fixError code s _ ih =>
    intro hg
    have := ih hg
    cases code <;> simpa [onCurrentPositionError, setLocationError, emit] using this
  | watch snap pos outcome s _ ih =>
    intro hg
    have := ih hg
    rwa [(onWatchPosition_spec snap pos outcome s).2.1]
  | watchError s _ ih =>
    intro hg
    have := ih hg
    simpa [onWatchError, setLocationError, emit] using this
  | heartbeat snap outcome s _ ih =>
    intro hg
    have := ih hg
    rcases hl : snap.currentLocation with _ | loc <;> cases outcome <;>
      simpa [onHeartbeat, updateDriverLocation, emit, hl] using this

/-- C8, as the code has it.  The watch callback holds no check that tracking
is still running: a sample handed to it after `stopLocationTracking` leaves
`isOnline`, `isTracking`, `loading` and both handles as they are, but it is
stored as `currentLocation` and one location push is made for it. -/
theorem late_sample_is_handled (geo : Bool) (snap : State) (pos : LatLng)
    (outcome : FetchOutcome) (s : Sys) :
    (onWatchPosition snap pos outcome (stopLocationTracking geo s).sys).state
      = { (stopLocationTracking geo s).sys.state with
            currentLocation := some pos, locationError := "" } ∧
    (onWatchPosition snap pos outcome (stopLocationTracking geo s).sys).watchIdRef
      = (stopLocationTracking geo s).sys.watchIdRef ∧
    (onWatchPosition snap pos outcome (stopLocationTracking geo s).sys).locationUpdateInterval
      = (stopLocationTracking geo s).sys.locationUpdateInterval ∧
    locationPushes (onWatchPosition snap pos outcome (stopLocationTracking geo s).sys).log
      = locationPushes (stopLocationTracking geo s).sys.log ++ [(pos.1, pos.2, snap.isOnline)] :=
  onWatchPosition_spec snap pos outcome (stopLocationTracking geo s).sys

/-- C8 fails on the code: the driver goes online, receives `(1, 2)`, goes
offline (which runs `stopLocationTracking`), and then the callback of the
cancelled watch is handed `(5, 6)`, a sample that was already on its way:
the position changes from `(1, 2)` to `(5, 6)` and a second location push is
made. -/
theorem late_sample_not_dropped :
    wentOffline.state.isTracking = false ∧
    wentOffline.watchIdRef = none ∧
    wentOffline.state.currentLocation = some (1, 2) ∧
    locationPushes wentOffline.log = [(1, 2, false)] ∧
    (onWatchPosition initialState (5, 6) .ok wentOffline).state.currentLocation = some (5, 6) ∧
    locationPushes (onWatchPosition initialState (5, 6) .ok wentOffline).log
      = [(1, 2, false), (5, 6, false)] := by
  decide

/-- What the one-shot callback does to any system: the position is stored and
the location error cleared; a request is posted exactly when the render that
issued `getCurrentLocation` had `isOnline` set. -/
theorem onCurrentPosition_spec (snap : State) (pos : LatLng) (outcome : FetchOutcome)
    (s : Sys) :
    (onCurrentPosition snap pos outcome s).state
      = { s.state with currentLocation := some pos, locationError := "" } ∧
    locationPushes (onCurrentPosition snap pos outcome s).log
      = locationPushes s.log ++ (if snap.isOnline then [(pos.1, pos.2, true)] else []) := by
  cases hsnap : snap.isOnline <;> cases outcome <;>
    simp [onCurrentPosition, updateDriverLocation, setCurrentLocation, setLocationError, emit,
      locationPushes, List.filterMap_append, hsnap]

/-- C9 fails on the code.  (a) The one-shot callback tests the `isOnline` of
the render that asked for the fix (line 134): the driver goes online from the
first render, which registers the request of line 221 with that render; its
fix arrives while the driver is Online, is stored as `currentLocation`, and
is not pushed.  (b) The watch callback tests nothing: two calls of
`handleOnlineToggle(true)` from the first render leave watch 7 registered and
forgotten, the driver goes offline, and the next sample of watch 7, handled
while `isOnline` is false, is pushed. -/
theorem position_push_ignores_presence :
    Effect.getCurrentPosition initialState ∈ wentOnline.log ∧
    wentOnline.state.isOnline = true ∧
    (onCurrentPosition initialState (5, 6) .ok wentOnline).state.isOnline = true ∧
    (onCurrentPosition initialState (5, 6) .ok wentOnline).state.currentLocation
      = some (5, 6) ∧
    locationPushes (onCurrentPosition initialState (5, 6) .ok wentOnline).log = [] ∧
    wentOnlineTwiceThenOffline.state.isOnline = false ∧
    activeWatch 7 wentOnlineTwiceThenOffline.log = some initialState ∧
    locationPushes wentOnlineTwiceThenOffline.log = [] ∧
    (sample 7 (5, 6) .ok wentOnlineTwiceThenOffline).state.isOnline = false ∧
    (sample 7 (5, 6) .ok wentOnlineTwiceThenOffline).state.currentLocation = some (5, 6) ∧
    locationPushes (sample 7 (5, 6) .ok wentOnlineTwiceThenOffline).log = [(5, 6, false)] := by
  decide

/-- C10 fails on the code, which reads `currentLocation` from the render that
started the timer.  (a) Online from the first render, sample `(5, 6)`
recorded: the tick pushes nothing, although a position is known.  (b) Online
again from a render showing `(1, 2)`, sample `(5, 6)` recorded and pushed:
the tick then pushes `(1, 2)`, the older position after the newer one. -/
theorem heartbeat_pushes_stale_position :
    (sample 7 (5, 6) .ok wentOnline).state.isTracking = true ∧
    (sample 7 (5, 6) .ok wentOnline).state.currentLocation = some (5, 6) ∧
    activeTimer 9 (sample 7 (5, 6) .ok wentOnline).log = some initialState ∧
    tick 9 .ok (sample 7 (5, 6) .ok wentOnline) = sample 7 (5, 6) .ok wentOnline ∧
    (sample 11 (5, 6) .ok wentOnlineAgain).state.isTracking = true ∧
    (sample 11 (5, 6) .ok wentOnlineAgain).state.currentLocation = some (5, 6) ∧
    locationPushes (sample 11 (5, 6) .ok wentOnlineAgain).log
      = [(1, 2, false), (5, 6, false)] ∧
    locationPushes (tick 13 .ok (sample 11 (5, 6) .ok wentOnlineAgain)).log
      = [(1, 2, false), (5, 6, false), (1, 2, false)] := by
  decide

/-- The heartbeat callback in general: what it pushes is the position of the
render that created it, not the position of the system it runs in. -/
theorem onHeartbeat_spec (snap : State) (outcome : FetchOutcome) (s : Sys) :
    (onHeartbeat snap outcome s).state = s.state ∧
    locationPushes (onHeartbeat snap outcome s).log
      = locationPushes s.log ++
          (match snap.currentLocation with
           | some loc => [(loc.1, loc.2, snap.isOnline)]
           | none => []) := by
  rcases hloc : snap.currentLocation with _ | loc <;> cases outcome <;>
    simp [onHeartbeat, updateDriverLocation, emit, locationPushes, List.filterMap_append, hloc]

/-- The guards of `stopLocationTracking` test truthiness: an id 0 would be
left in place and not cleared. -/
theorem stopLocationTracking_zero_id (st : State) (log : List Effect) :
    stopLocationTracking true
        { state := st, watchIdRef := some 0, locationUpdateInterval := some 0, log := log }
      = .normal { state := { st with isTracking := false }, watchIdRef := some 0,
                  locationUpdateInterval := some 0, log := log } := by
  rfl

/-- The effect log of `handleOnlineToggle(true)` where `navigator.geolocation`
exists: the presence request, then the one-shot request, the watch and the
timer, all three closing over the issuing render. -/
theorem handleOnlineToggle_online_log (snap : State) (outcome : FetchOutcome) (w t : Nat)
    (s : Sys) :
    (handleOnlineToggle true snap true outcome w t s).log
      = (updateOnlineStatus true outcome s).log ++
          [.getCurrentPosition snap, .watchPosition w snap, .setInterval t snap] := by
  cases outcome <;>
    simp [handleOnlineToggle, startLocationTracking, getCurrentLocation, setIsOnline,
      updateOnlineStatus, setLoading, setIsTracking, emit]

theorem presencePushes_updateOnlineStatus (online : Bool) (outcome : FetchOutcome) (s : Sys) :
    presencePushes (updateOnlineStatus online outcome s).log
      = presencePushes s.log ++ [online] := by
  cases outcome <;> simp [updateOnlineStatus, emit, presencePushes, List.filterMap_append]

/-- C11, as the code has it.  `handleOnlineToggle` holds no check of the
current presence: called with `true` while the driver is Online it leaves
`isOnline` as it is, but it posts the presence again, registers one more
watch and one more heartbeat timer, and stores their ids in the two handles. -/
theorem handleOnlineToggle_online_while_online (snap : State) (outcome : FetchOutcome)
    (w t : Nat) (s : Sys) (h : s.state.isOnline = true) :
    (handleOnlineToggle true snap true outcome w t s).state.isOnline = s.state.isOnline ∧
    (handleOnlineToggle true snap true outcome w t s).state.isTracking = true ∧
    presencePushes (handleOnlineToggle true snap true outcome w t s).log
      = presencePushes s.log ++ [true] ∧
    activeWatch w (handleOnlineToggle true snap true outcome w t s).log = some snap ∧
    activeTimer t (handleOnlineToggle true snap true outcome w t s).log = some snap ∧
    (handleOnlineToggle true snap true outcome w t s).watchIdRef = some w ∧
    (handleOnlineToggle true snap true outcome w t s).locationUpdateInterval = some t := by
  have hany := handleOnlineToggle_online_any_outcome true snap outcome w t s
  have hlog := handleOnlineToggle_online_log snap outcome w t s
  refine ⟨by rw [hany.1, h], (hany.2.2 rfl).1, ?_, ?_, ?_, (hany.2.2 rfl).2.1,
    (hany.2.2 rfl).2.2⟩
  · rw [hlog]
    have := presencePushes_updateOnlineStatus true outcome s
    simp only [presencePushes, List.filterMap_append] at this ⊢
    rw [this]
    simp
  · rw [hlog]
    simp [activeWatch, List.foldl_append]
  · rw [hlog]
    simp [activeTimer, List.foldl_append]

theorem handleOnlineToggle_online_while_online_witness :
    wentOnline.state.isOnline = true ∧
    presencePushes (handleOnlineToggle true wentOnline.state true .ok 11 13 wentOnline).log
      = presencePushes wentOnline.log ++ [true] ∧
    (handleOnlineToggle true wentOnline.state true .ok 11 13 wentOnline).watchIdRef
      = some 11 :=
  have h := handleOnlineToggle_online_while_online wentOnline.state .ok 11 13 wentOnline
    (by decide)
  ⟨by decide, h.2.2.1, h.2.2.2.2.2.1⟩

/-- C11 fails on the code: the driver is Online with watch 7 and timer 9, and
`handleOnlineToggle(true)` is called again.  The call posts the presence a
second time and registers watch 11 and timer 13, whose ids replace 7 and 9
in the handles. -/
theorem online_while_online_has_effects :
    wentOnline.state.isOnline = true ∧
    wentOnline.watchIdRef = some 7 ∧
    wentOnline.locationUpdateInterval = some 9 ∧
    wentOnlineWhileOnline.log
      = wentOnline.log ++ [.fetchOnline true, .getCurrentPosition wentOnline.state,
          .watchPosition 11 wentOnline.state, .setInterval 13 wentOnline.state] ∧
    wentOnlineWhileOnline.watchIdRef = some 11 ∧
    wentOnlineWhileOnline.locationUpdateInterval = some 13 := by
  decide

/-- C12, as the code has it.  A failure to acquire the position source is
shown in `locationError`, but the driver stays Online.  Without
`navigator.geolocation`, `handleOnlineToggle(true)` ends with `isOnline` set,
the error "Geolocation not supported", and `isTracking` and both handles as
they were; the presence request is all it adds to the effect log, so no
watch and no timer is registered.  When the first fix fails with `PERMISSION_DENIED`, the error
callback sets the error text and nothing else, so after
`handleOnlineToggle(true)` the driver is Online and tracking. -/
theorem handleOnlineToggle_online_without_position (snap : State) (outcome : FetchOutcome)
    (w t : Nat) (s : Sys) :
    ((handleOnlineToggle false snap true outcome w t s).state.isOnline = true ∧
     (handleOnlineToggle false snap true outcome w t s).state.locationError
       = "Geolocation not supported" ∧
     (handleOnlineToggle false snap true outcome w t s).state.isTracking
       = s.state.isTracking ∧
     (handleOnlineToggle false snap true outcome w t s).watchIdRef = s.watchIdRef ∧
     (handleOnlineToggle false snap true outcome w t s).locationUpdateInterval
       = s.locationUpdateInterval ∧
     (handleOnlineToggle false snap true outcome w t s).log
       = (updateOnlineStatus true outcome s).log) ∧
    ((onCurrentPositionError .permissionDenied
        (handleOnlineToggle true snap true outcome w t s)).state.locationError
       = "Location access denied. Please enable location permissions." ∧
     (onCurrentPositionError .permissionDenied
        (handleOnlineToggle true snap true outcome w t s)).state.isOnline = true ∧
     (onCurrentPositionError .permissionDenied
        (handleOnlineToggle true snap true outcome w t s)).state.isTracking = true ∧
     (onCurrentPositionError .permissionDenied
        (handleOnlineToggle true snap true outcome w t s)).watchIdRef = some w ∧
     (onCurrentPositionError .permissionDenied
        (handleOnlineToggle true snap true outcome w t s)).locationUpdateInterval
       = some t) := by
  constructor
  · cases outcome <;>
      simp [handleOnlineToggle, startLocationTracking, getCurrentLocation, setIsOnline,
        updateOnlineStatus, setLoading, setLocationError, emit]
  · cases outcome <;>
      simp [onCurrentPositionError, handleOnlineToggle, startLocationTracking,
        getCurrentLocation, setIsOnline, updateOnlineStatus, setLoading, setLocationError,
        setIsTracking, emit]

/-- C12 fails on the code: going online from the first render in a browser
without `navigator.geolocation` ends Online with the error shown; and when
the first fix of a driver who went online is denied, the driver stays Online
and tracking with the error shown. -/
theorem online_without_position_source :
    wentOnlineWithoutGeolocation.state.isOnline = true ∧
    wentOnlineWithoutGeolocation.state.locationError = "Geolocation not supported" ∧
    wentOnlinePermissionDenied.state.isOnline = true ∧
    wentOnlinePermissionDenied.state.isTracking = true ∧
    wentOnlinePermissionDenied.state.locationError
      = "Location access denied. Please enable location permissions." := by
  decide

/-- C13, as the code has it.  The watch callback does not look at the values
of a sample: every sample, inside the ranges of latitude and longitude or
outside, is stored unchanged as `currentLocation`, clears `locationError`,
and is posted unchanged.  Nor does the one-shot callback: it stores every
sample unchanged and clears `locationError`. -/
theorem sample_not_range_checked (snap : State) (pos : LatLng) (outcome : FetchOutcome)
    (s : Sys) :
    (onWatchPosition snap pos outcome s).state.currentLocation = some pos ∧
    (onWatchPosition snap pos outcome s).state.locationError = "" ∧
    locationPushes (onWatchPosition snap pos outcome s).log
      = locationPushes s.log ++ [(pos.1, pos.2, snap.isOnline)] ∧
    (onCurrentPosition snap pos outcome s).state.currentLocation = some pos ∧
    (onCurrentPosition snap pos outcome s).state.locationError = "" := by
  have h := onWatchPosition_spec snap pos outcome s
  have h1 := onCurrentPosition_spec snap pos outcome s
  refine ⟨?_, ?_, h.2.2.2, ?_, ?_⟩
  · rw [h.1]
  · rw [h.1]
  · rw [h1.1]
  · rw [h1.1]

/-- C13 fails on the code: a sample with latitude 91 degrees and longitude
181 degrees, handed to the watch callback of the driver who went online, is
stored and posted as it is, and no location error is set. -/
theorem out_of_range_sample_accepted :
    inRange (91000000, 181000000) = false ∧
    (sample 7 (91000000, 181000000) .ok wentOnline).state.currentLocation
      = some (91000000, 181000000) ∧
    (sample 7 (91000000, 181000000) .ok wentOnline).state.locationError = "" ∧
    locationPushes (sample 7 (91000000, 181000000) .ok wentOnline).log
      = [(91000000, 181000000, false)] := by
  decide

theorem fetchCount_append (l₁ l₂ : List Effect) :
    fetchCount (l₁ ++ l₂) = fetchCount l₁ + fetchCount l₂ := by
  simp [fetchCount, List.filter_append]

/-- C14, as the code has it.  A position push and a presence push make one
request each, whatever the back end answers: success, a permanent error, a
server error or a network failure.  Nothing is retried. -/
theorem push_makes_one_attempt (snap : State) (latitude longitude : Int) (online : Bool)
    (outcome : BackendOutcome) (s : Sys) :
    fetchCount (updateDriverLocation snap latitude longitude outcome.toFetch s).log
      = fetchCount s.log + 1 ∧
    fetchCount (updateOnlineStatus online outcome.toFetch s).log = fetchCount s.log + 1 := by
  cases outcome <;>
    simp [updateDriverLocation, updateOnlineStatus, BackendOutcome.toFetch, emit,
      fetchCount_append, fetchCount]

/-- C14 fails on the code: with a network failure followed by a success the
retry policy makes two attempts, and with three server errors it makes
three; the code makes one request in either case, for a position and for a
presence push. -/
theorem transient_error_not_retried :
    specAttempts 3 [.networkFailure, .success] = 2 ∧
    specAttempts 3 [.serverError, .serverError, .serverError] = 3 ∧
    fetchCount (updateDriverLocation initialState 1 2
      BackendOutcome.networkFailure.toFetch initialSys).log = 1 ∧
    fetchCount (updateOnlineStatus true
      BackendOutcome.serverError.toFetch initialSys).log = 1 := by
  decide

/-- C15. `updateDriverLocation` and `updateOnlineStatus` never throw: for
every outcome of the request, what their `try` block throws is caught by
their own `catch`, so the call completes normally, with the system the
embedding of the function gives, and the promise resolves. -/
theorem sync_operations_never_throw (snap : State) (latitude longitude : Int)
    (online : Bool) (outcome : FetchOutcome) (s : Sys) :
    updateDriverLocationCall snap latitude longitude outcome s
      = .normal (updateDriverLocation snap latitude longitude outcome s) ∧
    updateOnlineStatusCall online outcome s
      = .normal (updateOnlineStatus online outcome s) ∧
    (updateDriverLocationCall snap latitude longitude outcome s).settled
      = .resolvedUndefined ∧
    (updateOnlineStatusCall online outcome s).settled = .resolvedUndefined := by
  cases outcome <;>
    simp [updateDriverLocationCall, updateDriverLocationTry, updateDriverLocation,
      updateOnlineStatusCall, updateOnlineStatusTry, updateOnlineStatus,
      Completion.catchWith, Completion.settled]

/-- C16, as the code has it.  `updateDriverLocation` reports nothing to its
caller: for any two outcomes of the request, one successful and one failing
among them, the promise resolves with `undefined` both times and the state,
the handles and the requests made are the same; the outcomes differ in the
console alone. -/
theorem location_push_failure_not_reported (snap : State) (latitude longitude : Int)
    (o₁ o₂ : FetchOutcome) (s : Sys) :
    (updateDriverLocationCall snap latitude longitude o₁ s).settled
      = (updateDriverLocationCall snap latitude longitude o₂ s).settled ∧
    (updateDriverLocationCall snap latitude longitude o₁ s).sys.state
      = (updateDriverLocationCall snap latitude longitude o₂ s).sys.state ∧
    (updateDriverLocationCall snap latitude longitude o₁ s).sys.watchIdRef
      = (updateDriverLocationCall snap latitude longitude o₂ s).sys.watchIdRef ∧
    (updateDriverLocationCall snap latitude longitude o₁ s).sys.locationUpdateInterval
      = (updateDriverLocationCall snap latitude longitude o₂ s).sys.locationUpdateInterval ∧
    locationPushes (updateDriverLocationCall snap latitude longitude o₁ s).sys.log
      = locationPushes (updateDriverLocationCall snap latitude longitude o₂ s).sys.log := by
  cases o₁ <;> cases o₂ <;>
    simp [updateDriverLocationCall, updateDriverLocationTry, Completion.catchWith,
      Completion.settled, Completion.sys, emit, locationPushes, List.filterMap_append]

/-- C16 fails on the code: a position push answered with `ok` and one whose
request is rejected leave the caller with the same resolved promise and the
same state. -/
theorem push_failure_looks_like_success :
    (updateDriverLocationCall initialState 1 2 .ok initialSys).settled = .resolvedUndefined ∧
    (updateDriverLocationCall initialState 1 2 .networkError initialSys).settled
      = .resolvedUndefined ∧
    (updateDriverLocationCall initialState 1 2 .ok initialSys).sys.state
      = (updateDriverLocationCall initialState 1 2 .networkError initialSys).sys.state := by
  decide

/-- C20. The body `updateDriverLocation` posts is made of the latitude, the
longitude and the `isOnline` of the closing render, and of nothing else; a
push leaves the state and both handles as they are.  Pushing the same
position twice from the same render therefore posts the same body twice, and
so do two ticks of the heartbeat. -/
theorem location_push_idempotent (snap : State) (latitude longitude : Int)
    (o₁ o₂ : FetchOutcome) (s : Sys) :
    locationPushes (updateDriverLocation snap latitude longitude o₁ s).log
      = locationPushes s.log ++ [(latitude, longitude, snap.isOnline)] ∧
    (updateDriverLocation snap latitude longitude o₁ s).state = s.state ∧
    (updateDriverLocation snap latitude longitude o₁ s).watchIdRef = s.watchIdRef ∧
    (updateDriverLocation snap latitude longitude o₁ s).locationUpdateInterval
      = s.locationUpdateInterval ∧
    locationPushes (updateDriverLocation snap latitude longitude o₂
        (updateDriverLocation snap latitude longitude o₁ s)).log
      = locationPushes s.log ++
          [(latitude, longitude, snap.isOnline), (latitude, longitude, snap.isOnline)] ∧
    (∀ loc, snap.currentLocation = some loc →
      locationPushes (onHeartbeat snap o₂ (onHeartbeat snap o₁ s)).log
        = locationPushes s.log ++
            [(loc.1, loc.2, snap.isOnline), (loc.1, loc.2, snap.isOnline)] ∧
      (onHeartbeat snap o₂ (onHeartbeat snap o₁ s)).state = s.state) := by
  refine ⟨?_, ?_, ?_, ?_, ?_, ?_⟩
  · cases o₁ <;> simp [updateDriverLocation, emit, locationPushes, List.filterMap_append]
  · cases o₁ <;> simp [updateDriverLocation, emit]
  · cases o₁ <;> simp [updateDriverLocation, emit]
  · cases o₁ <;> simp [updateDriverLocation, emit]
  · cases o₁ <;> cases o₂ <;>
      simp [updateDriverLocation, emit, locationPushes, List.filterMap_append]
  · intro loc hloc
    cases o₁ <;> cases o₂ <;>
      simp [onHeartbeat, hloc, updateDriverLocation, emit, locationPushes,
        List.filterMap_append]

theorem location_push_idempotent_witness :
    (sample 7 (1, 2) .ok wentOnline).state.currentLocation = some (1, 2) ∧
    locationPushes (onHeartbeat (sample 7 (1, 2) .ok wentOnline).state .notOk
        (onHeartbeat (sample 7 (1, 2) .ok wentOnline).state .ok initialSys)).log
      = locationPushes initialSys.log ++ [(1, 2, true), (1, 2, true)] :=
  ⟨by decide,
   ((location_push_idempotent (sample 7 (1, 2) .ok wentOnline).state 0 0 .ok .notOk
      initialSys).2.2.2.2.2 (1, 2) (by decide)).1⟩

theorem locationPushes_onWatchPositionIssue (snap : State) (pos : LatLng) (s : Sys) :
    locationPushes (onWatchPositionIssue snap pos s).log
      = locationPushes s.log ++ [(pos.1, pos.2, snap.isOnline)] := by
  simp [onWatchPositionIssue, updateDriverLocationIssue, setLocationError,
    setCurrentLocation, emit, locationPushes, List.filterMap_append]

/-- The watch callback whose request is answered with `ok` is the callback
up to the request: a good answer adds nothing. -/
theorem onWatchPosition_ok_eq_issue (snap : State) (pos : LatLng) (s : Sys) :
    onWatchPosition snap pos .ok s = onWatchPositionIssue snap pos s := rfl

/-- C21, as the code has it.  There is no queue: each sample the watch
callback handles hands one request to `fetch` at once.  For any run of
samples handled before an answer arrives, the outstanding location requests
are those of all the samples, in their order; none is dropped, and their
number is the number of samples. -/
theorem every_sample_is_sent (snap : State) (samples : List LatLng) (s : Sys) :
    locationPushes (samplesIssued snap samples s).log
      = locationPushes s.log ++ samples.map (fun pos => (pos.1, pos.2, snap.isOnline)) ∧
    (locationPushes (samplesIssued snap samples s).log).length
      = (locationPushes s.log).length + samples.length := by
  have h : locationPushes (samplesIssued snap samples s).log
      = locationPushes s.log ++ samples.map (fun pos => (pos.1, pos.2, snap.isOnline)) := by
    induction samples generalizing s with
    | nil => simp [samplesIssued]
    | cons pos rest ih =>
      have := ih (onWatchPositionIssue snap pos s)
      simp only [samplesIssued, List.foldl_cons] at this ⊢
      rw [this, locationPushes_onWatchPositionIssue]
      simp
  refine ⟨h, ?_⟩
  rw [h]
  simp

/-- C21 fails on the code: the driver is online and six samples are handled
before any answer arrives.  The queue of the specification would hold five
tasks, the first dropped; the code has six requests outstanding, the first
among them. -/
theorem six_requests_outstanding :
    ([SyncTask.positionUpdate 1 1, .positionUpdate 2 2, .positionUpdate 3 3,
      .positionUpdate 4 4, .positionUpdate 5 5, .positionUpdate 6 6].foldl specEnqueue [])
      = [.positionUpdate 2 2, .positionUpdate 3 3, .positionUpdate 4 4,
         .positionUpdate 5 5, .positionUpdate 6 6] ∧
    locationPushes
        (samplesIssued initialState [(1, 1), (2, 2), (3, 3), (4, 4), (5, 5), (6, 6)]
          wentOnline).log
      = [(1, 1, false), (2, 2, false), (3, 3, false), (4, 4, false), (5, 5, false),
         (6, 6, false)] := by
  decide

theorem sessionEffects_append (l₁ l₂ : List Effect) :
    sessionEffects (l₁ ++ l₂) = sessionEffects l₁ ++ sessionEffects l₂ := by
  simp [sessionEffects, List.filter_append]

theorem sessionEffects_updateOnlineStatus (online : Bool) (outcome : FetchOutcome) (s : Sys) :
    sessionEffects (updateOnlineStatus online outcome s).log = sessionEffects s.log := by
  cases outcome <;> simp [updateOnlineStatus, emit, sessionEffects_append, sessionEffects]

theorem sessionEffects_stopLocationTracking (geo : Bool) (s : Sys) :
    sessionEffects (stopLocationTracking geo s).sys.log = sessionEffects s.log := by
  obtain ⟨st, wr, tr, lg⟩ := s
  rcases wr with _ | w <;> rcases tr with _ | t
  · rfl
  · by_cases ht : t = 0 <;>
      simp [stopLocationTracking, stopWatch, stopTimer, Completion.andThen, Completion.sys,
        setIsTracking, emit, sessionEffects_append, sessionEffects, ht]
  · by_cases hw : w = 0 <;> cases geo <;>
      simp [stopLocationTracking, stopWatch, stopTimer, Completion.andThen, Completion.sys,
        setIsTracking, emit, sessionEffects_append, sessionEffects, hw]
  · by_cases hw : w = 0 <;> by_cases ht : t = 0 <;> cases geo <;>
      simp [stopLocationTracking, stopWatch, stopTimer, Completion.andThen, Completion.sys,
        setIsTracking, emit, sessionEffects_append, sessionEffects, hw, ht]

/-- C22. Driver logout always completes: whatever the back end answers to
the offline presence update, and whether or not `stopLocationTracking`
completes, `handleLogout` removes `authToken`, then `userData`, from local
storage and then navigates to `/login`, once each. -/
theorem handleLogout_always_completes (geo : Bool) (outcome : FetchOutcome) (s : Sys) :
    sessionEffects (handleLogout geo outcome s).log
      = sessionEffects s.log ++
          [.removeItem "authToken", .removeItem "userData", .navigate "/login"] ∧
    presencePushes (handleLogout geo outcome s).log = presencePushes s.log ++ [false] := by
  have h1 := sessionEffects_stopLocationTracking geo (updateOnlineStatus false outcome s)
  rw [sessionEffects_updateOnlineStatus] at h1
  have h2 : presencePushes (stopLocationTracking geo
      (updateOnlineStatus false outcome s)).sys.log = presencePushes s.log ++ [false] := by
    rw [← presencePushes_updateOnlineStatus false outcome s]
    generalize updateOnlineStatus false outcome s = u
    obtain ⟨st, wr, tr, lg⟩ := u
    rcases wr with _ | w <;> rcases tr with _ | t
    · rfl
    · by_cases ht : t = 0 <;>
        simp [stopLocationTracking, stopWatch, stopTimer, Completion.andThen, Completion.sys,
          setIsTracking, emit, presencePushes, List.filterMap_append, ht]
    · by_cases hw : w = 0 <;> cases geo <;>
        simp [stopLocationTracking, stopWatch, stopTimer, Completion.andThen, Completion.sys,
          setIsTracking, emit, presencePushes, List.filterMap_append, hw]
    · by_cases hw : w = 0 <;> by_cases ht : t = 0 <;> cases geo <;>
        simp [stopLocationTracking, stopWatch, stopTimer, Completion.andThen, Completion.sys,
          setIsTracking, emit, presencePushes, List.filterMap_append, hw, ht]
  unfold handleLogout
  generalize stopLocationTracking geo (updateOnlineStatus false outcome s) = c at h1 h2 ⊢
  cases c with
  | normal t =>
    simp only [Completion.sys] at h1 h2
    constructor
    · simp only [Completion.andThen, emit, sessionEffects_append, h1, List.append_assoc]
      rfl
    · simp only [Completion.andThen, emit, presencePushes, List.filterMap_append] at h2 ⊢
      simp [h2]
  | threw t =>
    simp only [Completion.sys] at h1 h2
    constructor
    · simp only [Completion.andThen, emit, sessionEffects_append, h1, List.append_assoc]
      rfl
    · simp only [Completion.andThen, emit, presencePushes, List.filterMap_append] at h2 ⊢
      simp [h2]

end DriverDashboard

/-! ## Rider dashboard: fare estimate and ride request -/

namespace RiderDashboard

/-- On a value that is not negative, `toFixed(2)` is rounding half up. -/
theorem toFixed2_eq_roundHalfUp2 (x : ℚ) (hx : 0 ≤ x) : toFixed2 x = roundHalfUp2 x := by
  unfold toFixed2 roundHalfUp2
  rw [if_neg (not_lt.mpr hx)]

theorem roundHalfUp2_of_hundredths (n : ℤ) (x : ℚ) (hx : x * 100 = n) :
    roundHalfUp2 x = (n : ℚ) / 100 := by
  unfold roundHalfUp2
  have : ⌊x * 100 + 1 / 2⌋ = n := by
    rw [hx, Int.floor_eq_iff]
    constructor <;> norm_num
  rw [this]

theorem find_standard :
    rideTypes.find? (fun ride => ride.id == "standard") = rideTypes.head? := by
  simp [rideTypes, List.find?]

theorem find_comfort :
    rideTypes.find? (fun ride => ride.id == "comfort") = (rideTypes.drop 1).head? := by
  simp [rideTypes, List.find?]

theorem find_premier :
    rideTypes.find? (fun ride => ride.id == "premier") = (rideTypes.drop 2).head? := by
  simp [rideTypes, List.find?]

/-- C3. With pickup and destination entered and the ride type set to an entry
of `rideTypes`, `calculateFare` stores a quote whose amount is
`8.5 * pricePerKm` rounded half up to two decimal places, with distance
"8.5 km"; the amounts are 46.75 for standard, 59.5 for comfort and 76.5 for
premier. -/
theorem calculateFare_amount (s : Sys) (r : RideType)
    (hp : s.state.pickupLocation ≠ "") (hd : s.state.destination ≠ "")
    (hr : r ∈ rideTypes) (ht : s.state.rideType = r.id) :
    calculateFare s = .normal (setEstimatedFare
        (some { amount := roundHalfUp2 (17 / 2 * r.pricePerKm), distance := "8.5 km",
                duration := "15 min", currency := "M" }) s) ∧
    (r.id = "standard" → roundHalfUp2 (17 / 2 * r.pricePerKm) = 46.75) ∧
    (r.id = "comfort" → roundHalfUp2 (17 / 2 * r.pricePerKm) = 59.5) ∧
    (r.id = "premier" → roundHalfUp2 (17 / 2 * r.pricePerKm) = 76.5) := by
  have h1 : roundHalfUp2 (17 / 2 * (11 / 2)) = 46.75 := by
    rw [roundHalfUp2_of_hundredths 4675 _ (by norm_num)]; norm_num
  have h2 : roundHalfUp2 (17 / 2 * 7) = 59.5 := by
    rw [roundHalfUp2_of_hundredths 5950 _ (by norm_num)]; norm_num
  have h3 : roundHalfUp2 (17 / 2 * 9) = 76.5 := by
    rw [roundHalfUp2_of_hundredths 7650 _ (by norm_num)]; norm_num
  simp only [rideTypes, List.mem_cons, List.mem_singleton, List.not_mem_nil, or_false] at hr
  rcases hr with rfl | rfl | rfl
  · refine ⟨?_, fun _ => h1, fun h => absurd h (by decide), fun h => absurd h (by decide)⟩
    simp only at ht
    rw [calculateFare, if_neg (by simp [hp, hd]), ht, find_standard]
    simp only [rideTypes, mockDistance, List.head?]
    rw [toFixed2_eq_roundHalfUp2 _ (by norm_num)]
  · refine ⟨?_, fun h => absurd h (by decide), fun _ => h2, fun h => absurd h (by decide)⟩
    simp only at ht
    rw [calculateFare, if_neg (by simp [hp, hd]), ht, find_comfort]
    simp only [rideTypes, mockDistance, List.drop, List.head?]
    rw [toFixed2_eq_roundHalfUp2 _ (by norm_num)]
  · refine ⟨?_, fun h => absurd h (by decide), fun h => absurd h (by decide), fun _ => h3⟩
    simp only at ht
    rw [calculateFare, if_neg (by simp [hp, hd]), ht, find_premier]
    simp only [rideTypes, mockDistance, List.drop, List.head?]
    rw [toFixed2_eq_roundHalfUp2 _ (by norm_num)]

theorem calculateFare_amount_witness :
    readySys.state.pickupLocation ≠ "" ∧ readySys.state.destination ≠ "" ∧
    calculateFare readySys = .normal (setEstimatedFare
        (some { amount := roundHalfUp2 (17 / 2 * (11 / 2)), distance := "8.5 km",
                duration := "15 min", currency := "M" }) readySys) ∧
    roundHalfUp2 (17 / 2 * (11 / 2)) = 46.75 :=
  have h := calculateFare_amount readySys
    { id := "standard", name := "Standard", icon := "bi-car-front", pricePerKm := 11 / 2,
      description := "Affordable everyday rides" }
    (by decide) (by decide) (by simp [rideTypes]) rfl
  ⟨by decide, by decide, h.1, h.2.1 rfl⟩

/-- C4. With pickup or destination empty, `requestRide` only raises the
alert "Please enter both pickup and destination locations": the state, with
`loading` in it, is unchanged, no request is posted and nothing navigates,
whoever is signed in and whatever the back end would have answered. -/
theorem requestRide_incomplete_input (user : Option User) (resp : RideResponse) (s : Sys)
    (h : s.state.pickupLocation = "" ∨ s.state.destination = "") :
    requestRide user resp s
      = { state := s.state,
          log := s.log ++ [.alert "Please enter both pickup and destination locations"] } ∧
    rideRequests (requestRide user resp s).log = rideRequests s.log := by
  have h1 : requestRide user resp s
      = { state := s.state,
          log := s.log ++ [.alert "Please enter both pickup and destination locations"] } := by
    rw [requestRide, if_pos h]; rfl
  refine ⟨h1, ?_⟩
  rw [h1]
  simp [rideRequests, List.filterMap_append]

theorem requestRide_incomplete_input_witness :
    (({ state := { initialState with pickupLocation := "Current Location" }, log := [] }
        : Sys).state.pickupLocation = "" ∨
      ({ state := { initialState with pickupLocation := "Current Location" }, log := [] }
        : Sys).state.destination = "") ∧
    requestRide (some lerato) (.json true (some "ride-1") none)
        { state := { initialState with pickupLocation := "Current Location" }, log := [] }
      = { state := { initialState with pickupLocation := "Current Location" },
          log := [.alert "Please enter both pickup and destination locations"] } :=
  ⟨Or.inr rfl,
   (requestRide_incomplete_input (some lerato) (.json true (some "ride-1") none)
     { state := { initialState with pickupLocation := "Current Location" }, log := [] }
     (Or.inr rfl)).1⟩

/-- What `requestRide` posts when both locations are entered and a user is
signed in: exactly one request, built from the state as it is. -/
theorem requestRide_posts_once (u : User) (resp : RideResponse) (s : Sys)
    (hp : s.state.pickupLocation ≠ "") (hd : s.state.destination ≠ "") :
    rideRequests (requestRide (some u) resp s).log
      = rideRequests s.log ++ [rideData u s.state] := by
  rw [requestRide, if_neg (by simp [hp, hd])]
  rcases resp with _ | ok | ⟨ok, rideId, message⟩
  · simp [requestRideBody, rideRequests, List.filterMap_append, emit, setLoading, rideData]
  · simp [requestRideBody, rideRequests, List.filterMap_append, emit, setLoading, rideData]
  · cases ok
    · rcases message with _ | m
      · simp [requestRideBody, rideRequests, List.filterMap_append, emit, setLoading, rideData]
      · by_cases hm : m = "" <;>
          simp [requestRideBody, rideRequests, List.filterMap_append, emit, setLoading,
            rideData, hm]
    · simp [requestRideBody, rideRequests, List.filterMap_append, emit, setLoading, rideData]

theorem toFixed2_standard : toFixed2 (mockDistance * (11 / 2)) = 46.75 := by
  rw [toFixed2_eq_roundHalfUp2 _ (by norm_num [mockDistance]),
    roundHalfUp2_of_hundredths 4675 _ (by norm_num [mockDistance])]
  norm_num

theorem toFixed2_premier : toFixed2 (mockDistance * 9) = 76.5 := by
  rw [toFixed2_eq_roundHalfUp2 _ (by norm_num [mockDistance]),
    roundHalfUp2_of_hundredths 7650 _ (by norm_num [mockDistance])]
  norm_num

/-- C17 fails on the code, which computes the fare when the destination field
loses focus and at no other time.  The rider enters both locations and is
quoted 46.75 for "standard", then clicks "premier": the stored quote is
still 46.75, the request that `requestRide` posts carries the ride type
"premier" with the amount 46.75, and the estimate for "premier", which a
further blur would store, is 76.5. -/
theorem fare_not_recomputed_on_ride_type_change :
    quotedStandard.state.rideType = "standard" ∧
    quotedStandard.state.estimatedFare
      = some { amount := 46.75, distance := "8.5 km", duration := "15 min",
               currency := "M" } ∧
    switchedToPremier.state.rideType = "premier" ∧
    switchedToPremier.state.estimatedFare
      = some { amount := 46.75, distance := "8.5 km", duration := "15 min",
               currency := "M" } ∧
    rideRequests (requestRide (some lerato) (.json true (some "ride-1") none)
        switchedToPremier).log
      = [ { riderEmail := "lerato@example.com", riderName := "Lerato Mokoena",
            pickupLocation := "Current Location", destination := "Airport",
            rideType := "premier",
            estimatedFare := some { amount := 46.75, distance := "8.5 km",
                                    duration := "15 min", currency := "M" },
            riderLocation := (-29310000, 27480000) } ] ∧
    (onDestinationBlur switchedToPremier).state.estimatedFare
      = some { amount := 76.5, distance := "8.5 km", duration := "15 min",
               currency := "M" } := by
  have h1 : quotedStandard.state.estimatedFare
      = some { amount := toFixed2 (mockDistance * (11 / 2)), distance := "8.5 km",
               duration := "15 min", currency := "M" } := rfl
  have h2 : switchedToPremier.state.estimatedFare = quotedStandard.state.estimatedFare := rfl
  have h3 : rideRequests (requestRide (some lerato) (.json true (some "ride-1") none)
        switchedToPremier).log
      = [ { riderEmail := "lerato@example.com", riderName := "Lerato Mokoena",
            pickupLocation := "Current Location", destination := "Airport",
            rideType := "premier",
            estimatedFare := switchedToPremier.state.estimatedFare,
            riderLocation := (-29310000, 27480000) } ] := rfl
  have h4 : (onDestinationBlur switchedToPremier).state.estimatedFare
      = some { amount := toFixed2 (mockDistance * 9), distance := "8.5 km",
               duration := "15 min", currency := "M" } := rfl
  rw [toFixed2_standard] at h1
  rw [toFixed2_premier] at h4
  rw [h1] at h2
  rw [h2] at h3
  exact ⟨rfl, h1, rfl, h2, h3, h4⟩

/-- C18. One call of `requestRide` by a signed-in rider posts exactly one
ride request when pickup and destination are entered, whatever the back end
answers (a rejected request, a body that is not JSON, a JSON body with or
without `ok`), and posts none when one of the two is empty. -/
theorem requestRide_sends_exactly_once (u : User) (resp : RideResponse) (s : Sys) :
    (s.state.pickupLocation ≠ "" → s.state.destination ≠ "" →
      rideRequests (requestRide (some u) resp s).log
        = rideRequests s.log ++ [rideData u s.state]) ∧
    (s.state.pickupLocation = "" ∨ s.state.destination = "" →
      rideRequests (requestRide (some u) resp s).log = rideRequests s.log) := by
  refine ⟨fun hp hd => requestRide_posts_once u resp s hp hd, fun h => ?_⟩
  rw [requestRide, if_pos h]
  simp [rideRequests, emit, List.filterMap_append]

theorem requestRide_sends_exactly_once_witness :
    readySys.state.pickupLocation ≠ "" ∧ readySys.state.destination ≠ "" ∧
    rideRequests (requestRide (some lerato) .networkError readySys).log
      = rideRequests readySys.log ++ [rideData lerato readySys.state] ∧
    (({ state := initialState, log := [] } : Sys).state.pickupLocation = "" ∨
      ({ state := initialState, log := [] } : Sys).state.destination = "") ∧
    rideRequests (requestRide (some lerato) .networkError
        { state := initialState, log := [] }).log
      = rideRequests ({ state := initialState, log := [] } : Sys).log :=
  ⟨by decide, by decide,
   (requestRide_sends_exactly_once lerato .networkError readySys).1 (by decide) (by decide),
   Or.inl rfl,
   (requestRide_sends_exactly_once lerato .networkError
     { state := initialState, log := [] }).2 (Or.inl rfl)⟩

/-- C19. `calculateFare` is a function of the pickup, the destination and the
ride type: two systems that agree on the three behave alike, whatever else
they hold.  Both return without a quote (an input is empty), or both throw
(the ride type is not in the table), or both store the same quote; with
both inputs entered and a ride type of the table they store a quote.  The
effect log is left as it is, and a second evaluation changes nothing. -/
theorem calculateFare_deterministic (s₁ s₂ : Sys)
    (hp : s₁.state.pickupLocation = s₂.state.pickupLocation)
    (hd : s₁.state.destination = s₂.state.destination)
    (ht : s₁.state.rideType = s₂.state.rideType) :
    ((calculateFare s₁ = .normal s₁ ∧ calculateFare s₂ = .normal s₂) ∨
     (calculateFare s₁ = .threw s₁ ∧ calculateFare s₂ = .threw s₂) ∨
     (∃ q, calculateFare s₁ = .normal (setEstimatedFare (some q) s₁) ∧
           calculateFare s₂ = .normal (setEstimatedFare (some q) s₂))) ∧
    (s₁.state.pickupLocation ≠ "" → s₁.state.destination ≠ "" →
      (∃ r ∈ rideTypes, r.id = s₁.state.rideType) →
      ∃ q, calculateFare s₁ = .normal (setEstimatedFare (some q) s₁) ∧
           calculateFare s₂ = .normal (setEstimatedFare (some q) s₂)) ∧
    (calculateFare s₁).sys.log = s₁.log ∧
    (calculateFare s₁).andThen calculateFare = calculateFare s₁ := by
  have key : ∀ s : Sys, (s.state.pickupLocation = "" ∨ s.state.destination = "") →
      calculateFare s = .normal s := fun s h => by rw [calculateFare, if_pos h]
  have keyNone : ∀ s : Sys, ¬ (s.state.pickupLocation = "" ∨ s.state.destination = "") →
      rideTypes.find? (fun ride => ride.id == s.state.rideType) = none →
      calculateFare s = .threw s := fun s h hf => by rw [calculateFare, if_neg h, hf]
  have keySome : ∀ (s : Sys) (r : RideType),
      ¬ (s.state.pickupLocation = "" ∨ s.state.destination = "") →
      rideTypes.find? (fun ride => ride.id == s.state.rideType) = some r →
      calculateFare s = .normal (setEstimatedFare
        (some { amount := toFixed2 (mockDistance * r.pricePerKm), distance := "8.5 km",
                duration := "15 min", currency := "M" }) s) :=
    fun s r h hf => by rw [calculateFare, if_neg h, hf]
  by_cases hempty : s₁.state.pickupLocation = "" ∨ s₁.state.destination = ""
  · have hempty₂ : s₂.state.pickupLocation = "" ∨ s₂.state.destination = "" := by
      rwa [← hp, ← hd]
    refine ⟨Or.inl ⟨key s₁ hempty, key s₂ hempty₂⟩, ?_, ?_, ?_⟩
    · intro h1 h2
      exact absurd hempty (by simp [h1, h2])
    · rw [key s₁ hempty]; rfl
    · rw [key s₁ hempty]; exact key s₁ hempty
  · have hempty₂ : ¬ (s₂.state.pickupLocation = "" ∨ s₂.state.destination = "") := by
      rwa [← hp, ← hd]
    rcases hfind : rideTypes.find? (fun ride => ride.id == s₁.state.rideType) with _ | r
    · have hfind₂ : rideTypes.find? (fun ride => ride.id == s₂.state.rideType) = none := by
        rw [← ht]; exact hfind
      refine ⟨Or.inr (Or.inl ⟨keyNone s₁ hempty hfind, keyNone s₂ hempty₂ hfind₂⟩),
        ?_, ?_, ?_⟩
      · rintro - - ⟨r, hr, hid⟩
        rw [List.find?_eq_none] at hfind
        exact absurd (by simpa using hid) (hfind r hr)
      · rw [keyNone s₁ hempty hfind]; rfl
      · rw [keyNone s₁ hempty hfind]; rfl
    · have hfind₂ : rideTypes.find? (fun ride => ride.id == s₂.state.rideType) = some r := by
        rw [← ht]; exact hfind
      have h₁ := keySome s₁ r hempty hfind
      have h₂ := keySome s₂ r hempty₂ hfind₂
      refine ⟨Or.inr (Or.inr ⟨_, h₁, h₂⟩), fun _ _ _ => ⟨_, h₁, h₂⟩, ?_, ?_⟩
      · rw [h₁]; rfl
      · rw [h₁]
        exact keySome (setEstimatedFare _ s₁) r hempty hfind

theorem calculateFare_deterministic_witness :
    readySys.state.pickupLocation = (setLoading true readySys).state.pickupLocation ∧
    readySys.state.pickupLocation ≠ "" ∧ readySys.state.destination ≠ "" ∧
    (∃ r ∈ rideTypes, r.id = readySys.state.rideType) ∧
    (∃ q, calculateFare readySys = .normal (setEstimatedFare (some q) readySys) ∧
          calculateFare (setLoading true readySys)
            = .normal (setEstimatedFare (some q) (setLoading true readySys))) :=
  have hr : ∃ r ∈ rideTypes, r.id = readySys.state.rideType :=
    ⟨_, List.mem_cons_self _ _, rfl⟩
  ⟨rfl, by decide, by decide, hr,
   (calculateFare_deterministic readySys (setLoading true readySys) rfl rfl rfl).2.1
     (by decide) (by decide) hr⟩

theorem calculateFare_rideType (s : Sys) :
    (calculateFare s).sys.state.rideType = s.state.rideType := by
  unfold calculateFare
  split
  · rfl
  · split <;> rfl

theorem requestRide_rideType (user : Option User) (resp : RideResponse) (s : Sys) :
    (requestRide user resp s).state.rideType = s.state.rideType := by
  unfold requestRide
  split
  · rfl
  · rcases user with _ | u
    · rfl
    · rcases resp with _ | ok | ⟨ok, rideId, message⟩
      · rfl
      · rfl
      · cases ok
        · rcases message with _ | m
          · rfl
          · by_cases hm : m = "" <;> simp [requestRideBody, hm, setLoading, emit]
        · rfl

/-- In every reachable system the ride type is the id of an entry of the
table. -/
theorem reachable_rideType (s : Sys) (h : Reachable s) :
    ∃ r ∈ rideTypes, r.id = s.state.rideType := by
  induction h with
  | mount => exact ⟨_, List.mem_cons_self _ _, rfl⟩
  | pickupChange v s _ ih => exact ih
  | destinationChange v s _ ih => exact ih
  | rideTypeClick ride s hmem _ _ => exact ⟨ride, hmem, rfl⟩
  | destinationBlur s _ ih =>
    obtain ⟨r, hr, hid⟩ := ih
    exact ⟨r, hr, by rw [hid]; exact (calculateFare_rideType s).symm⟩
  | request user resp s _ ih =>
    obtain ⟨r, hr, hid⟩ := ih
    exact ⟨r, hr, by rw [hid]; exact (requestRide_rideType user resp s).symm⟩
  | locate geo s _ ih =>
    obtain ⟨r, hr, hid⟩ := ih
    refine ⟨r, hr, ?_⟩
    cases geo <;> simpa [getCurrentLocation, setLoading, emit] using hid
  | located pos s _ ih => exact ih
  | locateFailed s _ ih => exact ih
  | nearby ok answer s _ ih =>
    obtain ⟨r, hr, hid⟩ := ih
    refine ⟨r, hr, ?_⟩
    cases ok <;> rcases answer with _ | drivers <;>
      simpa [loadNearbyDrivers, emit] using hid
  | sidebar s _ ih => exact ih
  | map s _ ih => exact ih
  | dismiss s _ ih => exact ih

/-- A request `requestRide` posts carries the ride type of the state. -/
theorem requestRide_requests (user : Option User) (resp : RideResponse) (s : Sys) :
    ∀ body ∈ rideRequests (requestRide user resp s).log,
      body ∈ rideRequests s.log ∨ body.rideType = s.state.rideType := by
  intro body hbody
  by_cases hempty : s.state.pickupLocation = "" ∨ s.state.destination = ""
  · rw [requestRide, if_pos hempty] at hbody
    simp only [emit, rideRequests, List.filterMap_append] at hbody
    exact Or.inl (by simpa [rideRequests] using hbody)
  · rcases user with _ | u
    · rw [requestRide, if_neg hempty] at hbody
      simp only [requestRideBody, setLoading, emit, rideRequests,
        List.filterMap_append] at hbody
      exact Or.inl (by simpa [rideRequests] using hbody)
    · have hp : s.state.pickupLocation ≠ "" := fun h => hempty (Or.inl h)
      have hd : s.state.destination ≠ "" := fun h => hempty (Or.inr h)
      rw [requestRide_posts_once u resp s hp hd, List.mem_append] at hbody
      rcases hbody with h | h
      · exact Or.inl h
      · exact Or.inr (by rw [List.mem_singleton.mp h]; rfl)

/-- Every request in the log of a reachable system carries the id of an entry
of the table. -/
theorem reachable_requests (s : Sys) (h : Reachable s) :
    ∀ body ∈ rideRequests s.log, ∃ r ∈ rideTypes, r.id = body.rideType := by
  induction h with
  | mount => intro body hbody; simp [rideRequests] at hbody
  | pickupChange v s _ ih => exact ih
  | destinationChange v s _ ih => exact ih
  | rideTypeClick ride s _ _ ih => exact ih
  | destinationBlur s _ ih =>
    have hlog : (onDestinationBlur s).log = s.log := by
      unfold onDestinationBlur calculateFare
      split
      · rfl
      · split <;> rfl
    rw [hlog]; exact ih
  | request user resp s hs ih =>
    intro body hbody
    rcases requestRide_requests user resp s body hbody with h | h
    · exact ih body h
    · obtain ⟨r, hr, hid⟩ := reachable_rideType s hs
      exact ⟨r, hr, by rw [hid, h]⟩
  | locate geo s _ ih =>
    intro body hbody
    refine ih body ?_
    cases geo <;>
      simpa [getCurrentLocation, setLoading, emit, rideRequests, List.filterMap_append]
        using hbody
  | located pos s _ ih => exact ih
  | locateFailed s _ ih =>
    intro body hbody
    refine ih body ?_
    simpa [onCurrentPositionError, emit, rideRequests, List.filterMap_append] using hbody
  | nearby ok answer s _ ih =>
    intro body hbody
    refine ih body ?_
    cases ok <;> rcases answer with _ | drivers <;>
      simpa [loadNearbyDrivers, emit, rideRequests, List.filterMap_append] using hbody
  | sidebar s _ ih => exact ih
  | map s _ ih => exact ih
  | dismiss s _ ih => exact ih

/-- C5. A ride type that is not in the rate table never gets as far as a
network call: for every identifier that is the id of no entry of
`rideTypes`, no system the page can reach holds it as ride type, and after
`requestRide`, called from such a system by anybody and answered anyhow, no
request in the log carries it. -/
theorem off_table_tier_never_requested (tier : String) (user : Option User)
    (resp : RideResponse) (s : Sys)
    (ht : ∀ r ∈ rideTypes, r.id ≠ tier) (h : Reachable s) :
    s.state.rideType ≠ tier ∧
    ∀ body ∈ rideRequests (requestRide user resp s).log, body.rideType ≠ tier := by
  constructor
  · obtain ⟨r, hr, hid⟩ := reachable_rideType s h
    rw [← hid]
    exact ht r hr
  · intro body hbody
    obtain ⟨r, hr, hid⟩ :=
      reachable_requests _ (Reachable.request user resp s h) body hbody
    rw [← hid]
    exact ht r hr

theorem off_table_tier_never_requested_witness :
    (∀ r ∈ rideTypes, r.id ≠ "luxury") ∧
    Reachable (setDestination "Airport"
      (setPickupLocation "Taxi rank" { state := initialState, log := [] })) ∧
    rideRequests (requestRide (some lerato) (.json true (some "ride-1") none)
      (setDestination "Airport"
        (setPickupLocation "Taxi rank" { state := initialState, log := [] }))).log
      = [{ riderEmail := "lerato@example.com", riderName := "Lerato Mokoena",
           pickupLocation := "Taxi rank", destination := "Airport",
           rideType := "standard", estimatedFare := none,
           riderLocation := (-29310000, 27480000) }] ∧
    ∀ body ∈ rideRequests (requestRide (some lerato) (.json true (some "ride-1") none)
      (setDestination "Airport"
        (setPickupLocation "Taxi rank" { state := initialState, log := [] }))).log,
      body.rideType ≠ "luxury" :=
  have ht : ∀ r ∈ rideTypes, r.id ≠ "luxury" := by simp [rideTypes]
  have hreach : Reachable (setDestination "Airport"
      (setPickupLocation "Taxi rank" { state := initialState, log := [] })) :=
    Reachable.destinationChange "Airport" _
      (Reachable.pickupChange "Taxi rank" _ Reachable.mount)
  ⟨ht, hreach, rfl,
   (off_table_tier_never_requested "luxury" (some lerato)
     (.json true (some "ride-1") none) _ ht hreach).2⟩

/-- C28. The tier lookup of `calculateFare` cannot fail: in every system
reachable from the first render through the event handlers of the page, the
ride type is the id of an entry of `rideTypes`, `rideTypes.find` returns an
entry with that id, and `calculateFare` completes normally. -/
theorem calculateFare_lookup_cannot_fail (s : Sys) (h : Reachable s) :
    (∃ r ∈ rideTypes, r.id = s.state.rideType) ∧
    (∃ r, rideTypes.find? (fun ride => ride.id == s.state.rideType) = some r ∧
      r.id = s.state.rideType) ∧
    (∃ s1, calculateFare s = .normal s1) := by
  have hr := reachable_rideType s h
  have hfind : ∃ r, rideTypes.find? (fun ride => ride.id == s.state.rideType) = some r ∧
      r.id = s.state.rideType := by
    rcases hf : rideTypes.find? (fun ride => ride.id == s.state.rideType) with _ | r
    · obtain ⟨r, hmem, hid⟩ := hr
      rw [List.find?_eq_none] at hf
      exact absurd (by simpa using hid) (hf r hmem)
    · exact ⟨r, hf, by simpa using List.find?_some hf⟩
  refine ⟨hr, hfind, ?_⟩
  obtain ⟨r, hf, -⟩ := hfind
  unfold calculateFare
  split
  · exact ⟨_, rfl⟩
  · rw [hf]
    exact ⟨_, rfl⟩

theorem calculateFare_lookup_cannot_fail_witness :
    Reachable (setRideType "premier" (setDestination "Airport"
      (setPickupLocation "Taxi rank" { state := initialState, log := [] }))) ∧
    (∃ s1, calculateFare (setRideType "premier" (setDestination "Airport"
      (setPickupLocation "Taxi rank" { state := initialState, log := [] })))
        = .normal s1) :=
  have hreach : Reachable (setRideType "premier" (setDestination "Airport"
      (setPickupLocation "Taxi rank" { state := initialState, log := [] }))) :=
    Reachable.rideTypeClick
      { id := "premier", name := "Premier", icon := "bi-star", pricePerKm := 9,
        description := "Premium luxury vehicles" } _
      (by simp [rideTypes])
      (Reachable.destinationChange "Airport" _
        (Reachable.pickupChange "Taxi rank" _ Reachable.mount))
  ⟨hreach, (calculateFare_lookup_cannot_fail _ hreach).2.2⟩

end RiderDashboard

/-! ## Route guard and authentication context -/

namespace Components

/-- C25. `ProtectedRoute` renders its children exactly when `loading` is
false, a user is present, and either no `requiredRole` is given (the prop is
absent or empty) or the role of the user is the required one.  Once
`loading` is false, it redirects to `/login` when there is no user and to
`/` when the user has another role than the required one; while `loading`
is true it renders the spinner. -/
theorem protectedRoute_renders (loading : Bool) (user : Option AuthContext.User)
    (requiredRole : Option String) :
    (ProtectedRoute loading user requiredRole = .children ↔
      loading = false ∧
        ∃ u, user = some u ∧ (roleGiven requiredRole = false ∨ u.role = requiredRole)) ∧
    (loading = false → user = none →
      ProtectedRoute loading user requiredRole = .navigate "/login") ∧
    (loading = false → ∀ u, user = some u → roleGiven requiredRole = true →
      u.role ≠ requiredRole → ProtectedRoute loading user requiredRole = .navigate "/") ∧
    (loading = true → ProtectedRoute loading user requiredRole = .spinner) := by
  refine ⟨?_, ?_, ?_, ?_⟩
  · cases loading
    · rcases user with _ | u
      · simp [ProtectedRoute]
      · by_cases hg : roleGiven requiredRole = true
        · by_cases hr : u.role = requiredRole <;> simp [ProtectedRoute, hg, hr]
        · simp [ProtectedRoute, hg]
    · simp [ProtectedRoute]
  · rintro rfl rfl
    simp [ProtectedRoute]
  · rintro rfl u rfl hg hr
    simp [ProtectedRoute, hg, hr]
  · rintro rfl
    simp [ProtectedRoute]

theorem protectedRoute_renders_witness :
    ProtectedRoute false
        (some { email := "lerato@example.com", firstName := "Lerato",
                lastName := "Mokoena", role := some "rider" })
        (some "driver") = .navigate "/" ∧
    ProtectedRoute false none (some "driver") = .navigate "/login" :=
  ⟨(protectedRoute_renders false
      (some { email := "lerato@example.com", firstName := "Lerato",
              lastName := "Mokoena", role := some "rider" })
      (some "driver")).2.2.1 rfl _ rfl (by decide) (by decide),
   (protectedRoute_renders false none (some "driver")).2.1 rfl rfl⟩

end Components

namespace AuthContext

/-- C26. A login that requires 2FA authenticates nobody: on an `ok` answer
with `requires2FA` set, `login` leaves local storage and the user as they
are (no token, no user data, user null when it was), sets `requires2FA` and
sets `pendingEmail` to the submitted email, and returns `requires2FA: true`.
`login` changes the storage or the user only on an `ok` answer without
`requires2FA`, and `verify2FA` only on an `ok` answer. -/
theorem login_requiring_2FA_stores_nothing (email password code : String)
    (data : ResponseData) (resp : Response) (s : Sys) :
    (data.requires2FA = true →
      login email password (.json true data) s
        = ({ state := { s.state with requires2FA := true, pendingEmail := email },
             storage := s.storage,
             log := s.log ++ [.fetchLogin email password] },
           .ok (.requires2FA "2FA code sent to your email"))) ∧
    (((login email password resp s).1.storage ≠ s.storage ∨
        (login email password resp s).1.state.user ≠ s.state.user) →
      ∃ d, resp = .json true d ∧ d.requires2FA = false) ∧
    (((verify2FA code resp s).1.storage ≠ s.storage ∨
        (verify2FA code resp s).1.state.user ≠ s.state.user) →
      ∃ d, resp = .json true d ∧ (verify2FA code resp s).2 = .ok (.success d.user)) := by
  refine ⟨?_, ?_, ?_⟩
  · intro h
    simp [login, h]
  · intro h
    rcases resp with m | ⟨ok, m⟩ | ⟨ok, d⟩
    · simp [login] at h
    · simp [login] at h
    · cases ok
      · simp [login] at h
      · by_cases h2 : d.requires2FA = true
        · simp [login, h2] at h
        · exact ⟨d, rfl, by simpa using h2⟩
  · intro h
    rcases resp with m | ⟨ok, m⟩ | ⟨ok, d⟩
    · simp [verify2FA] at h
    · simp [verify2FA] at h
    · cases ok
      · simp [verify2FA] at h
      · exact ⟨d, rfl, rfl⟩

theorem login_requiring_2FA_stores_nothing_witness :
    (login "lerato@example.com" "secret"
        (.json true { message := none, requires2FA := true, token := none, user := none })
        signedOut).1.storage = signedOut.storage ∧
    (login "lerato@example.com" "secret"
        (.json true { message := none, requires2FA := true, token := none, user := none })
        signedOut).1.state
      = { user := none, loading := false, requires2FA := true,
          pendingEmail := "lerato@example.com" } :=
  have h := (login_requiring_2FA_stores_nothing "lerato@example.com" "secret" ""
    { message := none, requires2FA := true, token := none, user := none }
    (.networkError none) signedOut).1 rfl
  ⟨by rw [h], by rw [h]; rfl⟩

end AuthContext

/-! ## Login and password reset forms -/

namespace Login

theorem sanitizeCode_toList (value : String) :
    (sanitizeCode value).toList = (value.toList.filter isAsciiDigit).take 6 := rfl

/-- C23. The code field keeps digits only and at most six of them: for every
input the stored code consists of characters `0` to `9` alone, has length at
most 6, and is the first `min 6 k` digits of the input in their order, `k`
being the number of digits of the input; sanitising twice is sanitising
once, and the handler stores the sanitised input. -/
theorem sanitizeCode_spec (value : String) (st : State) :
    (∀ c ∈ (sanitizeCode value).toList, 48 ≤ c.toNat ∧ c.toNat ≤ 57) ∧
    (sanitizeCode value).length ≤ 6 ∧
    (sanitizeCode value).toList
      = (value.toList.filter isAsciiDigit).take
          (min 6 (value.toList.countP isAsciiDigit)) ∧
    sanitizeCode (sanitizeCode value) = sanitizeCode value ∧
    (onCodeChange value st).twoFACode = sanitizeCode value := by
  have hdig : ∀ c ∈ (sanitizeCode value).toList, isAsciiDigit c = true := by
    intro c hc
    rw [sanitizeCode_toList] at hc
    exact (List.mem_filter.mp (List.mem_of_mem_take hc)).2
  refine ⟨?_, ?_, ?_, ?_, ?_⟩
  · intro c hc
    simpa [isAsciiDigit] using hdig c hc
  · show ((value.toList.filter isAsciiDigit).take 6).length ≤ 6
    exact List.length_take_le 6 _
  · rw [sanitizeCode_toList, List.countP_eq_length_filter]
    rcases Nat.le_total 6 (value.toList.filter isAsciiDigit).length with h | h
    · rw [Nat.min_eq_left h]
    · rw [Nat.min_eq_right h, List.take_of_length_le h, List.take_of_length_le (le_refl _)]
  · have hfilter : (sanitizeCode value).toList.filter isAsciiDigit
        = (sanitizeCode value).toList := List.filter_eq_self.mpr hdig
    show String.mk (((sanitizeCode value).toList.filter isAsciiDigit).take 6)
      = sanitizeCode value
    rw [hfilter, sanitizeCode_toList, List.take_take, Nat.min_self]
    rfl
  · unfold onCodeChange
    split <;> rfl

theorem sanitizeCode_spec_witness :
    sanitizeCode "12a3 45-6789" = "123456" ∧
    (sanitizeCode "12a3 45-6789").length ≤ 6 ∧
    sanitizeCode (sanitizeCode "12a3 45-6789") = sanitizeCode "12a3 45-6789" :=
  have h := sanitizeCode_spec "12a3 45-6789"
    { email := "", password := "", twoFACode := "", loading := false, error := "",
      message := "" }
  ⟨by decide, h.2.1, h.2.2.2.1⟩

end Login

namespace ForgotPassword

/-- C29. `handleResetPassword` posts the reset request exactly when the new
password equals its confirmation and has a length of at least 6; the request
carries the email, the code and the new password of the form.  Otherwise it
sets one of its two error messages, posts nothing and leaves `loading` as it
is. -/
theorem handleResetPassword_validates (resp : Response) (s : Sys) :
    (s.state.formData.newPassword = s.state.formData.confirmPassword ∧
        6 ≤ jsLength s.state.formData.newPassword →
      resetRequests (handleResetPassword resp s).log
        = resetRequests s.log ++
            [(s.state.formData.email, s.state.formData.code,
              s.state.formData.newPassword)]) ∧
    (¬ (s.state.formData.newPassword = s.state.formData.confirmPassword ∧
        6 ≤ jsLength s.state.formData.newPassword) →
      (handleResetPassword resp s).log = s.log ∧
      (handleResetPassword resp s).state.loading = s.state.loading ∧
      ((handleResetPassword resp s).state.error = some "Passwords do not match" ∨
       (handleResetPassword resp s).state.error
         = some "Password must be at least 6 characters")) ∧
    ((resetRequests (handleResetPassword resp s).log).length
        = (resetRequests s.log).length + 1 ↔
      s.state.formData.newPassword = s.state.formData.confirmPassword ∧
        6 ≤ jsLength s.state.formData.newPassword) := by
  have hvalid : s.state.formData.newPassword = s.state.formData.confirmPassword ∧
        6 ≤ jsLength s.state.formData.newPassword →
      resetRequests (handleResetPassword resp s).log
        = resetRequests s.log ++
            [(s.state.formData.email, s.state.formData.code,
              s.state.formData.newPassword)] := by
    rintro ⟨heq, hlen⟩
    unfold handleResetPassword
    simp only [heq, ne_eq, not_true_eq_false, if_false, not_lt.mpr (heq ▸ hlen)]
    rcases resp with _ | ok | ⟨ok, message⟩
    · simp [resetPasswordBody, resetRequests, setError, setLoading, List.filterMap_append,
        heq]
    · simp [resetPasswordBody, resetRequests, setError, setLoading, List.filterMap_append,
        heq]
    · cases ok <;>
        simp [resetPasswordBody, resetRequests, setError, setLoading, setMessage,
          List.filterMap_append, heq]
  have hinvalid : ¬ (s.state.formData.newPassword = s.state.formData.confirmPassword ∧
        6 ≤ jsLength s.state.formData.newPassword) →
      (handleResetPassword resp s).log = s.log ∧
      (handleResetPassword resp s).state.loading = s.state.loading ∧
      ((handleResetPassword resp s).state.error = some "Passwords do not match" ∨
       (handleResetPassword resp s).state.error
         = some "Password must be at least 6 characters") := by
    intro h
    unfold handleResetPassword
    by_cases heq : s.state.formData.newPassword = s.state.formData.confirmPassword
    · have hlen : jsLength s.state.formData.newPassword < 6 :=
        Nat.lt_of_not_le fun h6 => h ⟨heq, h6⟩
      rw [heq] at hlen
      simp [heq, hlen, setError]
    · simp [heq, setError]
  refine ⟨hvalid, hinvalid, ?_⟩
  constructor
  · intro hlen
    by_contra hne
    rw [(hinvalid hne).1] at hlen
    omega
  · intro h
    rw [hvalid h]
    simp

theorem handleResetPassword_validates_witness :
    (filledForm.state.formData.newPassword = filledForm.state.formData.confirmPassword ∧
        6 ≤ jsLength filledForm.state.formData.newPassword) ∧
    resetRequests (handleResetPassword .networkError filledForm).log
      = resetRequests filledForm.log ++ [("lerato@example.com", "123456", "maseru26")] :=
  ⟨by decide,
   (handleResetPassword_validates .networkError filledForm).1 (by decide)⟩

end ForgotPassword

/-! ## Rider payment methods -/

namespace RiderPaymentMethods

/-- The list `sendProfile` leaves in the state is the one it found. -/
theorem sendProfile_methods (user : Option RiderDashboard.User) (updated : List PaymentMethod)
    (get : GetOutcome) (put : PutOutcome) (s : Sys) :
    (sendProfile user updated get put s).sys.state = s.state := by
  rcases user with _ | u
  · rfl
  · cases get <;> cases put <;> rfl

theorem addPaymentMethod_methods (now : Nat) (user : Option RiderDashboard.User)
    (get : GetOutcome) (put : PutOutcome) (s : Sys) :
    (addPaymentMethod now user get put s).state.paymentMethods = s.state.paymentMethods ∨
    (addPaymentMethod now user get put s).state.paymentMethods
      = updatedMethodsAdd now s.state := by
  unfold addPaymentMethod
  split
  · exact Or.inl rfl
  · have h := sendProfile_methods user (updatedMethodsAdd now (setLoading true s).state)
      get put (setLoading true s)
    simp only [addPaymentMethodBody]
    generalize sendProfile user (updatedMethodsAdd now (setLoading true s).state) get put
      (setLoading true s) = c at h ⊢
    cases c with
    | threw t =>
      simp only [Completion.sys] at h
      exact Or.inl (by simp [Completion.andThen, setLoading, emit, h])
    | normal t =>
      simp only [Completion.sys] at h
      rcases put with _ | _ | ⟨_ | message⟩
      · exact Or.inl (by simp [Completion.andThen, setLoading, emit, h])
      · exact Or.inr (by simp [Completion.andThen, setLoading, emit, updatedMethodsAdd])
      · exact Or.inl (by simp [Completion.andThen, setLoading, emit, h])
      · exact Or.inl (by simp [Completion.andThen, setLoading, emit, h])

theorem removePaymentMethod_methods (methodId : String) (user : Option RiderDashboard.User)
    (get : GetOutcome) (put : PutOutcome) (s : Sys) :
    (removePaymentMethod methodId user get put s).state.paymentMethods
      = s.state.paymentMethods ∨
    (removePaymentMethod methodId user get put s).state.paymentMethods
      = s.state.paymentMethods.filter fun method => method.id != methodId := by
  have h := sendProfile_methods user
    (s.state.paymentMethods.filter fun method => method.id != methodId) get put s
  simp only [removePaymentMethod]
  generalize sendProfile user
    (s.state.paymentMethods.filter fun method => method.id != methodId) get put s = c at h ⊢
  cases c with
  | threw t =>
    simp only [Completion.sys] at h
    exact Or.inl (by simp [emit, h])
  | normal t =>
    simp only [Completion.sys] at h
    rcases put with _ | _ | body
    · exact Or.inl (by simp [emit, h])
    · exact Or.inr (by simp [emit, setPaymentMethods])
    · exact Or.inl (by simp [emit, h])

theorem setPrimaryPaymentMethod_methods (methodId : String)
    (user : Option RiderDashboard.User) (get : GetOutcome) (put : PutOutcome) (s : Sys) :
    (setPrimaryPaymentMethod methodId user get put s).state.paymentMethods
      = s.state.paymentMethods ∨
    (setPrimaryPaymentMethod methodId user get put s).state.paymentMethods
      = s.state.paymentMethods.map fun method =>
          { method with isPrimary := method.id == methodId } := by
  have h := sendProfile_methods user
    (s.state.paymentMethods.map fun method =>
      { method with isPrimary := method.id == methodId }) get put s
  simp only [setPrimaryPaymentMethod]
  generalize sendProfile user
    (s.state.paymentMethods.map fun method =>
      { method with isPrimary := method.id == methodId }) get put s = c at h ⊢
  cases c with
  | threw t =>
    simp only [Completion.sys] at h
    exact Or.inl (by simp [emit, h])
  | normal t =>
    simp only [Completion.sys] at h
    rcases put with _ | _ | body
    · exact Or.inl (by simp [emit, h])
    · exact Or.inr (by simp [emit, setPaymentMethods])
    · exact Or.inl (by simp [emit, h])

/-- With a signed-in user, a profile fetched and the `PUT` answered with
`ok`, each handler stores the list it built. -/
theorem stored_on_ok (now : Nat) (methodId : String) (u : RiderDashboard.User)
    (fields : List (String × String)) (s : Sys) :
    (s.state.newPaymentMethod.phoneNumber ≠ "" → s.state.newPaymentMethod.accountName ≠ "" →
      (addPaymentMethod now (some u) (.ok fields) .ok s).state.paymentMethods
        = updatedMethodsAdd now s.state) ∧
    (removePaymentMethod methodId (some u) (.ok fields) .ok s).state.paymentMethods
      = (s.state.paymentMethods.filter fun method => method.id != methodId) ∧
    (setPrimaryPaymentMethod methodId (some u) (.ok fields) .ok s).state.paymentMethods
      = (s.state.paymentMethods.map fun method =>
          { method with isPrimary := method.id == methodId }) := by
  refine ⟨fun hp ha => ?_, rfl, rfl⟩
  rw [addPaymentMethod, if_neg (by simp [hp, ha])]
  rfl
/-- Adding a method keeps the number of primary entries at most one. -/
theorem primaryCount_updatedMethodsAdd (now : Nat) (st : State)
    (h : primaryCount st.paymentMethods ≤ 1) :
    primaryCount (updatedMethodsAdd now st) ≤ 1 := by
  unfold updatedMethodsAdd primaryCount at *
  rcases hl : st.paymentMethods with _ | ⟨m, rest⟩
  · simp [List.countP_cons]
  · rw [hl] at h
    simpa [List.countP_append, List.countP_cons] using h

theorem primaryCount_filter (p : PaymentMethod → Bool) (l : List PaymentMethod) :
    primaryCount (l.filter p) ≤ primaryCount l :=
  (List.filter_sublist l).countP_le _

theorem primaryCount_map (methodId : String) (l : List PaymentMethod) :
    primaryCount (l.map fun method => { method with isPrimary := method.id == methodId })
      = (l.map fun method => method.id).count methodId := by
  unfold primaryCount
  induction l with
  | nil => rfl
  | cons m rest ih =>
    simp only [List.map_cons, List.countP_cons, List.count_cons, ih]

/-- C24. The first payment method becomes primary: with phone number and
account name filled in, the list `addPaymentMethod` builds is the old list
followed by one new method, made of the form, whose `isPrimary` is true
exactly when the old list was empty; it is the list put to the back end
and, the `PUT` answered with `ok`, the list stored. -/
theorem addPaymentMethod_first_is_primary (now : Nat) (u : RiderDashboard.User)
    (fields : List (String × String)) (s : Sys)
    (hp : s.state.newPaymentMethod.phoneNumber ≠ "")
    (ha : s.state.newPaymentMethod.accountName ≠ "") :
    (∃ m, updatedMethodsAdd now s.state = s.state.paymentMethods ++ [m] ∧
      (m.isPrimary = true ↔ s.state.paymentMethods = []) ∧
      m.phoneNumber = s.state.newPaymentMethod.phoneNumber ∧
      m.accountName = s.state.newPaymentMethod.accountName ∧
      m.type = s.state.newPaymentMethod.type ∧
      m.provider = s.state.newPaymentMethod.provider ∧
      m.id = toString now) ∧
    (addPaymentMethod now (some u) (.ok fields) .ok s).state.paymentMethods
      = updatedMethodsAdd now s.state ∧
    (addPaymentMethod now (some u) (.ok fields) .ok s).log
      = s.log ++ [.fetchProfile u.email,
          .putProfile { rest := fields, paymentMethods := updatedMethodsAdd now s.state,
                        email := u.email },
          .alert "Payment method added successfully!"] := by
  refine ⟨⟨_, rfl, ?_, rfl, rfl, rfl, rfl, rfl⟩, ?_, ?_⟩
  · simp [List.length_eq_zero]
  · exact (stored_on_ok now "" u fields s).1 hp ha
  · rw [addPaymentMethod, if_neg (by simp [hp, ha])]
    simp [addPaymentMethodBody, sendProfile, Completion.andThen, emit, setLoading]
    rfl

theorem addPaymentMethod_first_is_primary_witness :
    (addPaymentMethod 1762387200000
        (some { email := "lerato@example.com", firstName := "Lerato",
                lastName := "Mokoena" })
        (.ok []) .ok
        { state := { initialState with
            newPaymentMethod := { type := "mobile_money", provider := "M-Pesa",
                                  phoneNumber := "+266 5800 0000",
                                  accountName := "Lerato Mokoena" } },
          log := [] }).state.paymentMethods
      = [{ type := "mobile_money", provider := "M-Pesa", phoneNumber := "+266 5800 0000",
           accountName := "Lerato Mokoena", id := "1762387200000", isPrimary := true }] :=
  (addPaymentMethod_first_is_primary 1762387200000
    { email := "lerato@example.com", firstName := "Lerato", lastName := "Mokoena" } []
    { state := { initialState with
        newPaymentMethod := { type := "mobile_money", provider := "M-Pesa",
                              phoneNumber := "+266 5800 0000",
                              accountName := "Lerato Mokoena" } },
      log := [] }
    (by decide) (by decide)).2.1.trans (by decide)

/-- C27. At most one payment method is primary: from a list with pairwise
distinct ids and at most one primary entry, the list in the state after
`addPaymentMethod`, after `removePaymentMethod(id)` and after
`setPrimaryPaymentMethod(id)` has at most one primary entry, whatever the
back end answers; and once `setPrimaryPaymentMethod(id)` has stored its list
for an id that is present, the entry with that id is primary and no other
is. -/
theorem at_most_one_primary (now : Nat) (methodId : String)
    (user : Option RiderDashboard.User) (u : RiderDashboard.User) (get : GetOutcome)
    (put : PutOutcome) (fields : List (String × String)) (s : Sys)
    (hn : (s.state.paymentMethods.map fun method => method.id).Nodup)
    (h1 : primaryCount s.state.paymentMethods ≤ 1) :
    primaryCount (addPaymentMethod now user get put s).state.paymentMethods ≤ 1 ∧
    primaryCount (removePaymentMethod methodId user get put s).state.paymentMethods ≤ 1 ∧
    primaryCount (setPrimaryPaymentMethod methodId user get put s).state.paymentMethods ≤ 1 ∧
    ((∃ m ∈ s.state.paymentMethods, m.id = methodId) →
      primaryCount
        (setPrimaryPaymentMethod methodId (some u) (.ok fields) .ok s).state.paymentMethods
          = 1 ∧
      ∀ m ∈ (setPrimaryPaymentMethod methodId (some u) (.ok fields)
          .ok s).state.paymentMethods, (m.isPrimary = true ↔ m.id = methodId)) := by
  have hcount : (s.state.paymentMethods.map fun method => method.id).count methodId ≤ 1 :=
    List.nodup_iff_count_le_one.mp hn methodId
  refine ⟨?_, ?_, ?_, ?_⟩
  · rcases addPaymentMethod_methods now user get put s with h | h <;> rw [h]
    · exact h1
    · exact primaryCount_updatedMethodsAdd now s.state h1
  · rcases removePaymentMethod_methods methodId user get put s with h | h <;> rw [h]
    · exact h1
    · exact le_trans (primaryCount_filter _ _) h1
  · rcases setPrimaryPaymentMethod_methods methodId user get put s with h | h <;> rw [h]
    · exact h1
    · rw [primaryCount_map]
      exact hcount
  · rintro ⟨m, hm, hid⟩
    rw [(stored_on_ok now methodId u fields s).2.2]
    constructor
    · rw [primaryCount_map]
      have hpos : 0 < (s.state.paymentMethods.map fun method => method.id).count methodId :=
        List.count_pos_iff.mpr (List.mem_map.mpr ⟨m, hm, hid⟩)
      omega
    · intro m' hm'
      obtain ⟨m0, -, rfl⟩ := List.mem_map.mp hm'
      simp

theorem at_most_one_primary_witness :
    (twoMethods.state.paymentMethods.map fun method => method.id).Nodup ∧
    primaryCount twoMethods.state.paymentMethods ≤ 1 ∧
    (∃ m ∈ twoMethods.state.paymentMethods, m.id = "2") ∧
    primaryCount (setPrimaryPaymentMethod "2"
      (some { email := "lerato@example.com", firstName := "Lerato", lastName := "Mokoena" })
      (.ok []) .ok twoMethods).state.paymentMethods = 1 :=
  have hn : (twoMethods.state.paymentMethods.map fun method => method.id).Nodup := by
    decide
  have h1 : primaryCount twoMethods.state.paymentMethods ≤ 1 := by decide
  have hm : ∃ m ∈ twoMethods.state.paymentMethods, m.id = "2" := by decide
  ⟨hn, h1, hm,
   ((at_most_one_primary 0 "2" none
      { email := "lerato@example.com", firstName := "Lerato", lastName := "Mokoena" }
      .networkError .networkError [] twoMethods hn h1).2.2.2 hm).1⟩

end RiderPaymentMethods

/-! ## Driver trips: statistics -/

namespace DriverTrips

theorem bitLengthAux_le (fuel n k : Nat) (h : n < 2 ^ k) :
    Binary64.bitLengthAux fuel n ≤ k := by
  induction fuel generalizing n k with
  | zero => simp [Binary64.bitLengthAux]
  | succ fuel ih =>
    unfold Binary64.bitLengthAux
    split
    · exact Nat.zero_le k
    · rename_i hn
      rcases k with _ | k
      · simp at h
        exact absurd h hn
      · have : n / 2 < 2 ^ k := by
          rw [Nat.div_lt_iff_lt_mul (by decide)]
          rwa [pow_succ] at h
        exact Nat.succ_le_succ (ih (n / 2) k this)

/-- Two whole numbers whose sum is below `2 ^ 53` are added without
rounding. -/
theorem add_whole (a b : Nat) (h : a + b < 2 ^ 53) :
    Binary64.add ⟨a, 0⟩ ⟨b, 0⟩ = ⟨((a + b : Nat) : Int), 0⟩ := by
  have hlen : Binary64.bitLength (a + b) ≤ 53 := bitLengthAux_le _ _ _ h
  have hexact : Binary64.exactAdd ⟨a, 0⟩ ⟨b, 0⟩ = ⟨((a + b : Nat) : Int), 0⟩ := by
    simp [Binary64.exactAdd]
  unfold Binary64.add
  rw [hexact]
  unfold Binary64.round53
  simp only [Int.natAbs_ofNat]
  by_cases h0 : a + b = 0
  · simp [h0]
  · simp [h0, hlen]

theorem foldl_add_whole (ns : List Nat) (a : Nat) (h : a + ns.sum < 2 ^ 53) :
    (ns.map fun (n : Nat) => (⟨Int.ofNat n, 0⟩ : Binary64.Num)).foldl Binary64.add
        ⟨Int.ofNat a, 0⟩
      = ⟨Int.ofNat (a + ns.sum), 0⟩ := by
  induction ns generalizing a with
  | nil => simp
  | cons n rest ih =>
    simp only [List.map_cons, List.foldl_cons, List.sum_cons] at h ⊢
    have hstep := add_whole a n (by omega)
    simp only [Int.ofNat_eq_coe] at hstep ih ⊢
    rw [hstep, ih (a + n) (by omega), Nat.add_assoc]

theorem completed_add_cancelled_le (trips : List Trip) :
    (trips.countP fun trip => trip.status == "completed") +
      (trips.countP fun trip => trip.status == "cancelled") ≤ trips.length := by
  induction trips with
  | nil => simp
  | cons t rest ih =>
    simp only [List.countP_cons, List.length_cons, beq_iff_eq]
    split_ifs with h1 h2
    · rw [h1] at h2
      exact absurd h2 (by decide)
    · omega
    · omega
    · omega

/-- C30, as the code has it.  For every list of trips `calculateStats`
yields: the length of the list as `totalTrips`; the numbers of trips with
status "completed" and "cancelled" as `completedTrips` and `cancelledTrips`,
which together are at most `totalTrips`; as `totalEarnings` the fares of the
completed trips alone, added from left to right in double arithmetic; and as
`averageRating` 0 when no trip is completed, and else the ratings of the
completed trips (a missing rating counted as 0) added in double arithmetic,
divided by their number, multiplied by 10, rounded by `Math.round` and
divided by 10.  Where the fares of the completed trips are whole numbers
whose sum is below `2 ^ 53`, `totalEarnings` is exactly that sum. -/
theorem calculateStats_spec (trips : List Trip) :
    (calculateStats trips).totalTrips = trips.length ∧
    (calculateStats trips).completedTrips
      = (trips.countP fun trip => trip.status == "completed") ∧
    (calculateStats trips).cancelledTrips
      = (trips.countP fun trip => trip.status == "cancelled") ∧
    (calculateStats trips).completedTrips + (calculateStats trips).cancelledTrips
      ≤ (calculateStats trips).totalTrips ∧
    (calculateStats trips).totalEarnings
      = (((trips.filter fun trip => trip.status == "completed").map
          fun trip => trip.fare).foldl Binary64.add ⟨0, 0⟩) ∧
    ((trips.countP fun trip => trip.status == "completed") = 0 →
      (calculateStats trips).averageRating = ⟨0, 0⟩) ∧
    (0 < (trips.countP fun trip => trip.status == "completed") →
      (calculateStats trips).averageRating
        = Binary64.div
            (Binary64.mathRound
              (Binary64.mul
                (Binary64.div
                  (((trips.filter fun trip => trip.status == "completed").map
                      ratingOrZero).foldl Binary64.add ⟨0, 0⟩)
                  (Binary64.ofNat (trips.countP fun trip => trip.status == "completed")))
                (Binary64.ofNat 10)))
            (Binary64.ofNat 10)) ∧
    (∀ ns : List Nat,
      ((trips.filter fun trip => trip.status == "completed").map fun trip => trip.fare)
          = (ns.map fun (n : Nat) => (⟨Int.ofNat n, 0⟩ : Binary64.Num)) →
      ns.sum < 2 ^ 53 →
      (calculateStats trips).totalEarnings = ⟨Int.ofNat ns.sum, 0⟩) := by
  have hc : (calculateStats trips).completedTrips
      = (trips.countP fun trip => trip.status == "completed") := by
    simp [calculateStats, List.countP_eq_length_filter]
  have hx : (calculateStats trips).cancelledTrips
      = (trips.countP fun trip => trip.status == "cancelled") := by
    simp [calculateStats, List.countP_eq_length_filter]
  have ht : (calculateStats trips).totalTrips = trips.length := rfl
  have hlen : (trips.filter fun trip => trip.status == "completed").length
      = (trips.countP fun trip => trip.status == "completed") :=
    (List.countP_eq_length_filter _ _).symm
  have he : (calculateStats trips).totalEarnings
      = (((trips.filter fun trip => trip.status == "completed").map
          fun trip => trip.fare).foldl Binary64.add ⟨0, 0⟩) := by
    simp only [calculateStats, List.foldl_map]
  refine ⟨ht, hc, hx, ?_, he, ?_, ?_, ?_⟩
  · rw [hc, hx, ht]
    exact completed_add_cancelled_le trips
  · intro h0
    have h0' : ¬ (trips.filter fun trip => trip.status == "completed").length > 0 := by
      rw [hlen, h0]; exact Nat.lt_irrefl 0
    simp only [calculateStats, if_neg h0']
    decide
  · intro hpos
    have hpos' : (trips.filter fun trip => trip.status == "completed").length > 0 := by
      rw [hlen]; exact hpos
    simp only [calculateStats, List.foldl_map, hlen, gt_iff_lt, hpos, if_true]
  · intro ns hfares hsum
    rw [he, hfares]
    have h := foldl_add_whole ns 0 (by omega)
    rw [Nat.zero_add] at h
    exact h

set_option maxRecDepth 1000000

theorem calculateStats_spec_witness :
    0 < (mockTrips.countP fun trip => trip.status == "completed") ∧
    (calculateStats mockTrips).completedTrips = 4 ∧
    (calculateStats mockTrips).cancelledTrips = 1 ∧
    Binary64.sameValue (calculateStats mockTrips).totalEarnings ⟨375, -1⟩ = true ∧
    Binary64.sameValue (calculateStats mockTrips).averageRating (Binary64.decimal 45 10)
      = true ∧
    (calculateStats mockTrips.tail).totalEarnings = ⟨142, 0⟩ :=
  have hpos : 0 < (mockTrips.countP fun trip => trip.status == "completed") := by decide
  have h := calculateStats_spec mockTrips
  ⟨hpos, h.2.1.trans (by decide), h.2.2.1.trans (by decide),
   by rw [h.2.2.2.2.1]; decide, by rw [h.2.2.2.2.2.2.1 hpos]; decide,
   (calculateStats_spec mockTrips.tail).2.2.2.2.2.2.2 [65, 35, 42] (by decide) (by decide)⟩

/-- C30 fails on the code, which computes in doubles.  With two completed
trips of fares 0.1 and 0.2, `totalEarnings` is 0.30000000000000004, which is
neither the sum of the two fares nor the double nearest to 0.3.  With two
completed trips rated 4.3 and 4.6, whose mean 4.45 is 4.5 when rounded to
one decimal, tie upwards, `averageRating` is 4.4. -/
theorem totalEarnings_is_not_the_sum :
    (calculateStats smallFares).totalEarnings = ⟨5404319552844596, -54⟩ ∧
    Binary64.sameValue (calculateStats smallFares).totalEarnings
      (Binary64.exactAdd (Binary64.decimal 1 10) (Binary64.decimal 2 10)) = false ∧
    Binary64.sameValue (calculateStats smallFares).totalEarnings
      (Binary64.decimal 3 10) = false ∧
    (calculateStats fractionalRatings).averageRating = Binary64.decimal 44 10 ∧
    Binary64.sameValue (calculateStats fractionalRatings).averageRating
      (Binary64.decimal 45 10) = false := by
  decide

end DriverTrips
